import Mathlib

/-! Verification of `pkg/tink/tink.go`

A shallow embedding of the artifact generators of the seeder's `tink` package:
`GenerateHWRequest`, `GenerateWorkflow`, `generateCloudConfig` and
`generateIPXEScript`, followed by theorems about them.

Conventions of the embedding.

* A Go `string` is a Lean `String`; `fmt.Sprintf` with `%s` verbs is string
  concatenation, `%d` of an integer is its decimal rendering.
* A Go slice is a `List` (a nil slice and an empty slice are both `[]`).
* A Go `map[string]string` is an association list; a nil map is `none`.
* A Go pointer field is an `Option` (`nil` is `none`).
* A Go `(value, error)` return is a pair whose second component is the error
  message, `none` standing for a nil error.
* A Go function that may panic returns an `Outcome`.
-/

set_option autoImplicit false

namespace Tink

/-! ## Constants of the package -/

def defaultLeaseTime : Int := 86400
def defaultArch : String := "x86_64"
def defaultFacilityCode : String := "on_prem"
def defaultDistro : String := "harvester"
def defaultISOURL : String := "https://releases.rancher.com/harvester/"
def v11Prefix : String := "v1.1"
def defaultEvent : String := "SUCCEEDED"
def defaultMethod : String := "PUT"

/-! ## Go runtime notions -/

/-- Result of running a Go function body: either it returns its result
tuple, or the goroutine panics with a message. -/
inductive Outcome (α : Type) where
  | returned (value : α)
  | panicked (msg : String)
  deriving Repr, DecidableEq

/-- Go map with string keys and values, as an association list in insertion order. -/
abbrev GoMap := List (String × String)

/-- Map assignment `m[k] = v`: replaces the value of an existing key, otherwise adds the entry. -/
def mapAssign : GoMap → String → String → GoMap
  | [], k, v => [(k, v)]
  | (k', v') :: rest, k, v =>
    if k' = k then (k, v) :: rest else (k', v') :: mapAssign rest k v

/-- Map read `m[k]` with presence flag. -/
def mapLookup (m : GoMap) (k : String) : Option String :=
  (m.find? (fun e => e.1 == k)).map (fun e => e.2)

/-- The function `strings.HasPrefix s p`: `s` begins with `p`. Go compares
bytes; on well-formed UTF-8 text that is the same as comparing characters. -/
def HasPrefix (s p : String) : Bool :=
  p.data.isPrefixOf s.data

/-! ## Records of the seeder API (`seederv1alpha1`) read by the package

Only the fields that `tink.go` reads are kept. -/

structure Condition where
  CondType : String
  deriving Repr, DecidableEq

structure InventorySpec where
  PrimaryDisk : String
  ManagementInterfaceMacAddress : String
  deriving Repr, DecidableEq

/-- The fields `Address`, `Netmask` and `Gateway` are promoted from the embedded
`PXEBootInterface` struct, as the Go selectors `i.Status.Address` read them. -/
structure InventoryStatus where
  Conditions : List Condition
  GeneratedPassword : String
  Address : String
  Netmask : String
  Gateway : String
  deriving Repr, DecidableEq

structure Inventory where
  Name : String
  Namespace : String
  Spec : InventorySpec
  Status : InventoryStatus
  deriving Repr, DecidableEq

structure ClusterConfig where
  Nameservers : List String
  SSHKeys : List String
  CustomProvisioningTemplate : String
  deriving Repr, DecidableEq

structure ClusterSpec where
  HarvesterVersion : String
  ImageURL : String
  ConfigURL : String
  BondOptions : Option GoMap
  ClusterConfig : ClusterConfig
  deriving Repr, DecidableEq

structure ClusterStatus where
  ClusterToken : String
  ClusterAddress : String
  deriving Repr, DecidableEq

structure Cluster where
  Name : String
  Namespace : String
  Spec : ClusterSpec
  Status : ClusterStatus
  deriving Repr, DecidableEq

/-! ## Kubernetes service (`corev1.Service`), reduced to what is read -/

structure LoadBalancerIngress where
  IP : String
  deriving Repr, DecidableEq

structure LoadBalancerStatus where
  Ingress : List LoadBalancerIngress
  deriving Repr, DecidableEq

structure ServiceStatus where
  LoadBalancer : LoadBalancerStatus
  deriving Repr, DecidableEq

structure Service where
  Name : String
  Status : ServiceStatus
  deriving Repr, DecidableEq

/-! ## Installer configuration document (`config.HarvesterConfig`)

The fields that `generateCloudConfig` assigns; all other fields of the
installer's struct stay at their zero value and are not represented. -/

structure NetworkInterface where
  HwAddr : String
  deriving Repr, DecidableEq

structure Network where
  Interfaces : List NetworkInterface
  Method : String
  IP : String
  SubnetMask : String
  Gateway : String
  DefaultRoute : Bool
  BondOptions : Option GoMap
  deriving Repr, DecidableEq

structure Webhook where
  Event : String
  Method : String
  URL : String
  deriving Repr, DecidableEq

structure Install where
  Automatic : Bool
  Mode : String
  ManagementInterface : Network
  Vip : String
  VipMode : String
  ConfigURL : String
  ISOURL : String
  Webhooks : List Webhook
  deriving Repr, DecidableEq

structure OS where
  SSHAuthorizedKeys : List String
  Password : String
  DNSNameservers : List String
  deriving Repr, DecidableEq

structure HarvesterConfig where
  SchemeVersion : Nat
  ServerURL : String
  Token : String
  OS : OS
  Install : Install
  deriving Repr, DecidableEq

/-! ## Tinkerbell objects (`tinkv1alpha1`) built by the package -/

structure IPXE where
  URL : String
  Contents : String
  deriving Repr, DecidableEq

structure Netboot where
  AllowPXE : Option Bool
  AllowWorkflow : Option Bool
  IPXE : Option IPXE
  deriving Repr, DecidableEq

structure IP where
  Address : String
  Netmask : String
  Gateway : String
  deriving Repr, DecidableEq

structure DHCP where
  MAC : String
  Hostname : String
  LeaseTime : Int
  NameServers : List String
  Arch : String
  UEFI : Bool
  IP : Option IP
  deriving Repr, DecidableEq

structure Interface where
  Netboot : Option Netboot
  DHCP : Option DHCP
  deriving Repr, DecidableEq

structure Disk where
  Device : String
  deriving Repr, DecidableEq

structure MetadataFacility where
  FacilityCode : String
  deriving Repr, DecidableEq

structure MetadataInstanceOperatingSystem where
  Version : String
  Distro : String
  deriving Repr, DecidableEq

structure MetadataInstance where
  OperatingSystem : Option MetadataInstanceOperatingSystem
  deriving Repr, DecidableEq

structure HardwareMetadata where
  Facility : Option MetadataFacility
  Instance : Option MetadataInstance
  deriving Repr, DecidableEq

structure HardwareSpec where
  UserData : Option String
  Interfaces : List Interface
  Disks : List Disk
  Metadata : Option HardwareMetadata
  deriving Repr, DecidableEq

structure Hardware where
  Name : String
  Namespace : String
  Spec : HardwareSpec
  deriving Repr, DecidableEq

structure WorkflowSpec where
  TemplateRef : String
  HardwareRef : String
  HardwareMap : Option GoMap
  deriving Repr, DecidableEq

structure Workflow where
  Name : String
  Namespace : String
  Spec : WorkflowSpec
  deriving Repr, DecidableEq

/-! ## What the package takes from outside

The process environment, the YAML serializer, and the constants declared in
files of the repository other than `tink.go`. -/

structure Deps where
  /-- The function `os.Getenv`: the value of a variable, `""` when unset. -/
  Getenv : String → String
  /-- The function `yaml.Marshal` on the configuration document: the bytes, or an error message. -/
  yamlMarshal : HarvesterConfig → Except String String
  /-- The constant `seederv1alpha1.DefaultEndpointPort`. -/
  DefaultEndpointPort : Int
  /-- The constant `HegelDefaultPort` of package `tink`. -/
  HegelDefaultPort : String
  /-- The condition type `seederv1alpha1.HarvesterCreateNode`. -/
  HarvesterCreateNode : String

/-- Modelled from the spec: the constructor `config.NewHarvesterConfig` of the
installer library is not under `src/`; the document it hands out has every
field unset (the zero value), which the spec's "leave ... unset" rules and the
package's own tests (`assert.Empty(hc.ServerURL)`) rely on. -/
def NewHarvesterConfig : HarvesterConfig :=
  { SchemeVersion := 0
    ServerURL := ""
    Token := ""
    OS := { SSHAuthorizedKeys := [], Password := "", DNSNameservers := [] }
    Install :=
      { Automatic := false
        Mode := ""
        ManagementInterface :=
          { Interfaces := [], Method := "", IP := "", SubnetMask := "", Gateway := "",
            DefaultRoute := false, BondOptions := none }
        Vip := ""
        VipMode := ""
        ConfigURL := ""
        ISOURL := ""
        Webhooks := [] } }

/-- Modelled from the spec: the helper `util.ConditionExists` lives in `pkg/util`,
which is not under `src/`; the node's role is derived from node-scoped
conditions, so the helper holds when the inventory carries a condition of the
given type. -/
def ConditionExists (i : Inventory) (cond : String) : Bool :=
  i.Status.Conditions.any (fun x => x.CondType == cond)

/-! ## `generateCloudConfig` -/

/-- The value of `hc` in `generateCloudConfig` at the point where it is handed
to `yaml.Marshal` (source lines 154 to 194); `port` is `DefaultEndpointPort`. -/
def cloudConfigDocument (port : Int)
    (configURL hwAddress mode vip token password ip subnetMask gateway : String)
    (Nameservers SSHKeys : List String) (bondOptions : Option GoMap)
    (imageURL harvesterVersion webhookURL hwName hwNamespace : String) : HarvesterConfig :=
  let hc := NewHarvesterConfig
  let hc := { hc with SchemeVersion := 1 }
  let hc := { hc with Token := token }
  let hc :=
    if mode = "join" then
      { hc with ServerURL := "https://" ++ vip ++ ":443" }
    else
      { hc with Install := { hc.Install with Vip := vip, VipMode := "static" } }
  let hc := { hc with Install := { hc.Install with Mode := mode } }
  let hc := { hc with Install := { hc.Install with ManagementInterface :=
    { Method := "static"
      IP := ip
      SubnetMask := subnetMask
      Gateway := gateway
      DefaultRoute := true
      Interfaces := [{ HwAddr := hwAddress }]
      BondOptions := none } } }
  let hc := { hc with Install := { hc.Install with ConfigURL := configURL } }
  let hc := { hc with Install := { hc.Install with Automatic := true } }
  let hc := { hc with OS := { hc.OS with Password := password } }
  let hc := { hc with OS := { hc.OS with DNSNameservers := Nameservers } }
  let hc := { hc with OS := { hc.OS with SSHAuthorizedKeys := SSHKeys } }
  let hc := { hc with Install := { hc.Install with ManagementInterface :=
    { hc.Install.ManagementInterface with BondOptions := bondOptions } } }
  if HasPrefix harvesterVersion v11Prefix then
    let hc := { hc with Install := { hc.Install with ConfigURL := "" } }
    let hc := { hc with Install := { hc.Install with ISOURL :=
      imageURL ++ "/" ++ harvesterVersion ++ "/harvester-" ++ harvesterVersion ++ "-amd64.iso" } }
    { hc with Install := { hc.Install with Webhooks :=
      [{ Event := defaultEvent
         Method := defaultMethod
         URL := "http://" ++ webhookURL ++ ":" ++ toString port ++ "/disable/" ++
           hwNamespace ++ "/" ++ hwName }] } }
  else
    hc

/-- The function `generateCloudConfig`: builds the document, serializes it, and
returns `(string(hcBytes), nil)` or `("", error)`. -/
def generateCloudConfig (D : Deps)
    (configURL hwAddress mode vip token password ip subnetMask gateway : String)
    (Nameservers SSHKeys : List String) (bondOptions : Option GoMap)
    (imageURL harvesterVersion webhookURL hwName hwNamespace : String) : String × Option String :=
  match D.yamlMarshal (cloudConfigDocument D.DefaultEndpointPort configURL hwAddress mode vip token
      password ip subnetMask gateway Nameservers SSHKeys bondOptions imageURL harvesterVersion
      webhookURL hwName hwNamespace) with
  | .ok hcBytes => (hcBytes, none)
  | .error err => ("", some ("error marshalling yaml: " ++ err))

/-! ## `generateIPXEScript` -/

/-- The function `generateIPXEScript`: the constant template parses, and executing
it over a struct of string fields into a `bytes.Buffer` writes each literal
piece and each field verbatim (`text/template` does no escaping), so the error
branch is never taken and the result is `(output.String(), nil)`. -/
def generateIPXEScript (harvesterVersion isoURL hegelEndpoint macAddress disk address netmask
    gateway : String) : String × Option String :=
  ("#!ipxe\n\tset version " ++ harvesterVersion ++
   "\n\tset base " ++ isoURL ++ "/" ++ harvesterVersion ++
   "\n\tdhcp\n\tiflinkwait -t 5000\n\tgoto $\x7bifname\x7d\n\t:net0\n\tset address $\x7bnet0/mac\x7d\n\tgoto setupboot\n\t:net1\n\tset address $\x7bnet1/mac\x7d\n\tgoto setupboot\n\t:net2\n\tset address $\x7bnet2/mac\x7d\n\tgoto setupboot\n\t:net3\n\tset address $\x7bnet3/mac\x7d\n\tgoto setupboot\n\n\t:setupboot\n\tkernel $\x7bbase\x7d/harvester-$\x7bversion\x7d-vmlinuz-amd64 initrd=harvester-$\x7bversion\x7d-initrd-amd64 ip=dhcp net.ifnames=1 rd.cos.disable rd.noverifyssl BOOTIF=" ++
   macAddress ++
   " root=live:$\x7bbase\x7d/harvester-$\x7bversion\x7d-rootfs-amd64.squashfs harvester.install.management_interface.interfaces=hwAddr:" ++
   macAddress ++
   " harvester.install.management_interface.method=static harvester.install.management_interface.ip=" ++
   address ++
   " harvester.install.management_interface.subnet_mask=" ++
   netmask ++
   " harvester.install.management_interface.gateway=" ++
   gateway ++
   " harvester.install.device=" ++
   disk ++
   " harvester.install.management_interface.bond_options.mode=balance-tlb harvester.install.management_interface.bond_options.miimon=100 console=tty1 harvester.install.automatic=true boot_cmd=\x27echo include_ping_test=yes >> /etc/conf.d/net-online\x27 harvester.install.config_url=" ++
   hegelEndpoint ++
   "\n\tinitrd $\x7bbase\x7d/harvester-$\x7bversion\x7d-initrd-amd64\n\tboot\n\t",
   none)

/-! ## `GenerateHWRequest` -/

/-- The loop of source lines 120 to 124: every interface gets the script as
inline netboot content; writing through a nil `Netboot` pointer panics. -/
def attachIPXE (customIPXEScript : String) : List Interface → Outcome (List Interface)
  | [] => .returned []
  | itf :: rest =>
    match itf.Netboot with
    | none => .panicked "runtime error: invalid memory address or nil pointer dereference"
    | some nb =>
      match attachIPXE customIPXEScript rest with
      | .panicked msg => .panicked msg
      | .returned rest' =>
        let ipxe : IPXE := { URL := "", Contents := customIPXEScript }
        let nb' : Netboot := { nb with IPXE := some ipxe }
        .returned ({ itf with Netboot := some nb' } :: rest')

/-- The descriptor assigned to `hw` at source lines 66 to 111, `m` being the
serialized configuration document. -/
def hardwareLiteral (i : Inventory) (c : Cluster) (m : String) : Hardware :=
  { Name := i.Name
    Namespace := i.Namespace
    Spec :=
      { UserData := some m
        Interfaces :=
          [{ Netboot := some { AllowPXE := some true, AllowWorkflow := some true, IPXE := none }
             DHCP := some
               { MAC := i.Spec.ManagementInterfaceMacAddress
                 Hostname := i.Name ++ "-" ++ i.Namespace
                 LeaseTime := defaultLeaseTime
                 Arch := defaultArch
                 UEFI := true
                 IP := some
                   { Address := i.Status.Address
                     Netmask := i.Status.Netmask
                     Gateway := i.Status.Gateway }
                 NameServers := c.Spec.ClusterConfig.Nameservers } }]
        Disks := [{ Device := i.Spec.PrimaryDisk }]
        Metadata := some
          { Facility := some { FacilityCode := defaultFacilityCode }
            Instance := some
              { OperatingSystem := some
                  { Version := c.Spec.HarvesterVersion
                    Distro := defaultDistro } } } } }

/-- The function `GenerateHWRequest`. The result tuple is `(hw, err)`; a nil
`hw` is `none` and a nil `err` is `none`. -/
def GenerateHWRequest (D : Deps) (i : Inventory) (c : Cluster)
    (seederDeploymentService tinkStackService : Service) :
    Outcome (Option Hardware × Option String) :=
  let mode := if ConditionExists i D.HarvesterCreateNode then "create" else "join"
  let ingressEnabled := D.Getenv "SEEDER_ENDPOINT_INGRESS_ENABLED" == "true"
  if seederDeploymentService.Status.LoadBalancer.Ingress.length == 0 && ingressEnabled then
    .returned (none, some ("waiting for ingress to be populated on svc: " ++
      seederDeploymentService.Name))
  else
    let ingressIP? : Outcome String :=
      if ingressEnabled then
        match seederDeploymentService.Status.LoadBalancer.Ingress[0]? with
        | some e => .returned e.IP
        | none => .panicked "runtime error: index out of range [0] with length 0"
      else
        .returned (D.Getenv "SEEDER_ENDPOINT_INGRESS_IP")
    match ingressIP? with
    | .panicked msg => .panicked msg
    | .returned ingressIP =>
      if ingressIP = "" then
        .panicked "Ingress IP was unset"
      else
        let bondOptions : GoMap := []
        let bondOptions :=
          if c.Spec.BondOptions = none then
            mapAssign (mapAssign bondOptions "mode" "balance-tlb") "miimon" "100"
          else
            bondOptions
        match generateCloudConfig D c.Spec.ConfigURL i.Spec.ManagementInterfaceMacAddress mode
            c.Status.ClusterAddress c.Status.ClusterToken i.Status.GeneratedPassword
            i.Status.Address i.Status.Netmask i.Status.Gateway c.Spec.ClusterConfig.Nameservers
            c.Spec.ClusterConfig.SSHKeys (some bondOptions) c.Spec.ImageURL
            c.Spec.HarvesterVersion ingressIP i.Name i.Namespace with
        | (_, some err) => .returned (none, some ("error during HW generation: " ++ err))
        | (m, none) =>
          let hw := hardwareLiteral i c m
          if HasPrefix c.Spec.HarvesterVersion v11Prefix then
            match tinkStackService.Status.LoadBalancer.Ingress[0]? with
            | none => .panicked "runtime error: index out of range [0] with length 0"
            | some e =>
              match generateIPXEScript c.Spec.HarvesterVersion c.Spec.ImageURL
                  ("http://" ++ e.IP ++ ":" ++ D.HegelDefaultPort ++ "/2009-04-04/user-data")
                  i.Spec.ManagementInterfaceMacAddress i.Spec.PrimaryDisk i.Status.Address
                  i.Status.Netmask i.Status.Gateway with
              | (_, some err) =>
                .returned (none, some ("error generating custom ipxe script for inventory " ++
                  i.Name ++ ": " ++ err))
              | (customIPXEScript, none) =>
                match attachIPXE customIPXEScript hw.Spec.Interfaces with
                | .panicked msg => .panicked msg
                | .returned itfs =>
                  .returned (some { hw with Spec := { hw.Spec with Interfaces := itfs } }, none)
          else
            .returned (some hw, none)

/-- The endpoint that source lines 44 to 49 assign to `ingressIP`, when the
index expression does not panic. -/
def resolvedIngressIP (D : Deps) (seederDeploymentService : Service) : Option String :=
  if D.Getenv "SEEDER_ENDPOINT_INGRESS_ENABLED" == "true" then
    (seederDeploymentService.Status.LoadBalancer.Ingress[0]?).map (fun e => e.IP)
  else
    some (D.Getenv "SEEDER_ENDPOINT_INGRESS_IP")

/-- The configuration document that the call of `generateCloudConfig` at source
lines 59 and 60 builds, for the resolved endpoint `ingressIP`. -/
def embeddedDocument (D : Deps) (i : Inventory) (c : Cluster) (ingressIP : String) :
    HarvesterConfig :=
  cloudConfigDocument D.DefaultEndpointPort c.Spec.ConfigURL i.Spec.ManagementInterfaceMacAddress
    (if ConditionExists i D.HarvesterCreateNode then "create" else "join")
    c.Status.ClusterAddress c.Status.ClusterToken i.Status.GeneratedPassword
    i.Status.Address i.Status.Netmask i.Status.Gateway c.Spec.ClusterConfig.Nameservers
    c.Spec.ClusterConfig.SSHKeys
    (some (if c.Spec.BondOptions = none then
      mapAssign (mapAssign [] "mode" "balance-tlb") "miimon" "100" else []))
    c.Spec.ImageURL c.Spec.HarvesterVersion ingressIP i.Name i.Namespace

/-- The boot script that source lines 115 and 116 render, for the first ingress
address `tinkIP` of the tink stack service. -/
def hwIPXEScript (D : Deps) (i : Inventory) (c : Cluster) (tinkIP : String) : String × Option String :=
  generateIPXEScript c.Spec.HarvesterVersion c.Spec.ImageURL
    ("http://" ++ tinkIP ++ ":" ++ D.HegelDefaultPort ++ "/2009-04-04/user-data")
    i.Spec.ManagementInterfaceMacAddress i.Spec.PrimaryDisk i.Status.Address
    i.Status.Netmask i.Status.Gateway

/-! ## `GenerateWorkflow` -/

/-- The function `GenerateWorkflow`; it returns a pointer to a freshly built
workflow, never nil. -/
def GenerateWorkflow (i : Inventory) (c : Cluster) : Workflow :=
  let workflow : Workflow :=
    { Name := i.Name
      Namespace := i.Namespace
      Spec :=
        { TemplateRef := i.Name
          HardwareRef := i.Name
          HardwareMap := some [("device_1", i.Spec.ManagementInterfaceMacAddress)] } }
  if c.Spec.ClusterConfig.CustomProvisioningTemplate ≠ "" then
    { workflow with Spec := { workflow.Spec with
        TemplateRef := c.Spec.ClusterConfig.CustomProvisioningTemplate } }
  else
    workflow

/-! ## Sample inputs

The inventory and cluster of the package's tests, and a toy serializer. -/

/-- Rendering of one map as `k=v;` items, `~` for a nil map. -/
def sampleMapText : Option GoMap → String
  | none => "~"
  | some m => String.join (m.map (fun e => e.1 ++ "=" ++ e.2 ++ ";"))

/-- A toy serializer that never fails and prints the fields that vary with the mode, the version and the bonding options. -/
def sampleMarshal (hc : HarvesterConfig) : Except String String :=
  .ok ("token: " ++ hc.Token ++ "\nserver_url: " ++ hc.ServerURL ++
    "\nmode: " ++ hc.Install.Mode ++ "\nvip: " ++ hc.Install.Vip ++
    "\nconfig_url: " ++ hc.Install.ConfigURL ++ "\niso_url: " ++ hc.Install.ISOURL ++
    "\nbond_options: " ++ sampleMapText hc.Install.ManagementInterface.BondOptions ++ "\n")

def sampleEnv (enabled ip : String) : String → String := fun name =>
  if name = "SEEDER_ENDPOINT_INGRESS_ENABLED" then enabled
  else if name = "SEEDER_ENDPOINT_INGRESS_IP" then ip
  else ""

def sampleDeps (enabled ip : String) : Deps :=
  { Getenv := sampleEnv enabled ip
    yamlMarshal := sampleMarshal
    DefaultEndpointPort := 9090
    HegelDefaultPort := "50061"
    HarvesterCreateNode := "harvesterCreateNode" }

def sampleInventory : Inventory :=
  { Name := "firstnode"
    Namespace := "default"
    Spec := { PrimaryDisk := "/dev/sda", ManagementInterfaceMacAddress := "xx:xx:xx:xx:xx" }
    Status :=
      { Conditions := [{ CondType := "harvesterCreateNode" }]
        GeneratedPassword := "password"
        Address := "192.168.1.129"
        Netmask := "255.255.255.0"
        Gateway := "192.168.1.1" } }

def sampleCluster (version : String) (bond : Option GoMap) : Cluster :=
  { Name := "harvester-one"
    Namespace := "default"
    Spec :=
      { HarvesterVersion := version
        ImageURL := "http://images"
        ConfigURL := "http://endpoint"
        BondOptions := bond
        ClusterConfig :=
          { SSHKeys := ["abc", "def"]
            Nameservers := ["8.8.8.8", "8.8.4.4"]
            CustomProvisioningTemplate := "" } }
    Status := { ClusterToken := "token", ClusterAddress := "192.168.1.100" } }

def sampleService (name : String) (ips : List String) : Service :=
  { Name := name
    Status := { LoadBalancer := { Ingress := ips.map (fun ip => { IP := ip }) } } }

def sampleSeederService : Service := sampleService "seeder" []

def sampleTinkService : Service := sampleService "tink" ["10.0.0.9"]

/-- The descriptor returned for the sample inventory and a cluster at version "v1.2.0". -/
def sampleModernHardware : Hardware :=
  hardwareLiteral sampleInventory (sampleCluster "v1.2.0" none)
    "token: token\nserver_url: \nmode: create\nvip: 192.168.1.100\nconfig_url: http://endpoint\niso_url: \nbond_options: mode=balance-tlb;miimon=100;\n"

/-- The descriptor returned for the sample inventory and a cluster at version "v1.1.2". -/
def sampleLegacyHardware : Hardware :=
  { Name := "firstnode"
    Namespace := "default"
    Spec :=
      { UserData := some
          "token: token\nserver_url: \nmode: create\nvip: 192.168.1.100\nconfig_url: \niso_url: http://images/v1.1.2/harvester-v1.1.2-amd64.iso\nbond_options: mode=balance-tlb;miimon=100;\n"
        Interfaces :=
          [{ Netboot := some
               { AllowPXE := some true
                 AllowWorkflow := some true
                 IPXE := some
                   { URL := ""
                     Contents := (generateIPXEScript "v1.1.2" "http://images"
                       "http://10.0.0.9:50061/2009-04-04/user-data" "xx:xx:xx:xx:xx" "/dev/sda"
                       "192.168.1.129" "255.255.255.0" "192.168.1.1").1 } }
             DHCP := some
               { MAC := "xx:xx:xx:xx:xx"
                 Hostname := "firstnode-default"
                 LeaseTime := 86400
                 Arch := "x86_64"
                 UEFI := true
                 IP := some
                   { Address := "192.168.1.129", Netmask := "255.255.255.0",
                     Gateway := "192.168.1.1" }
                 NameServers := ["8.8.8.8", "8.8.4.4"] } }]
        Disks := [{ Device := "/dev/sda" }]
        Metadata := some
          { Facility := some { FacilityCode := "on_prem" }
            Instance := some
              { OperatingSystem := some { Version := "v1.1.2", Distro := "harvester" } } } } }

/-- The inventory of the workflow tests: only name and namespace are set. -/
def sampleTestNode : Inventory :=
  { Name := "test-node"
    Namespace := "harvester-system"
    Spec := { PrimaryDisk := "", ManagementInterfaceMacAddress := "" }
    Status :=
      { Conditions := [], GeneratedPassword := "", Address := "", Netmask := "", Gateway := "" } }

/-- The cluster of the workflow tests, with the given custom provisioning template. -/
def sampleTestCluster (template : String) : Cluster :=
  { Name := "test-cluster"
    Namespace := "harvester-system"
    Spec :=
      { HarvesterVersion := ""
        ImageURL := ""
        ConfigURL := ""
        BondOptions := none
        ClusterConfig :=
          { SSHKeys := [], Nameservers := [], CustomProvisioningTemplate := template } }
    Status := { ClusterToken := "", ClusterAddress := "" } }

/-- The workflow that the package's test expects for the given template
reference: name, namespace and the two references, nothing else. -/
def sampleExpectedWorkflow (templateRef : String) : Workflow :=
  { Name := "test-node"
    Namespace := "harvester-system"
    Spec := { TemplateRef := templateRef, HardwareRef := "test-node", HardwareMap := none } }

/-- The sample inventory without any condition: a node that joins. -/
def sampleJoinInventory : Inventory :=
  { Name := "firstnode"
    Namespace := "default"
    Spec := { PrimaryDisk := "/dev/sda", ManagementInterfaceMacAddress := "xx:xx:xx:xx:xx" }
    Status :=
      { Conditions := []
        GeneratedPassword := "password"
        Address := "192.168.1.129"
        Netmask := "255.255.255.0"
        Gateway := "192.168.1.1" } }

/-- The descriptor returned for the joining inventory and a cluster at version "v1.2.0". -/
def sampleJoinHardware : Hardware :=
  hardwareLiteral sampleJoinInventory (sampleCluster "v1.2.0" none)
    "token: token\nserver_url: https://192.168.1.100:443\nmode: join\nvip: \nconfig_url: http://endpoint\niso_url: \nbond_options: mode=balance-tlb;miimon=100;\n"

/-- For a call that returned a descriptor, whether each of its interfaces carries
an inline boot script. -/
def inlineScriptFlags (r : Outcome (Option Hardware × Option String)) : Option (List Bool) :=
  match r with
  | .returned (some hw, none) =>
    some (hw.Spec.Interfaces.map (fun itf =>
      match itf.Netboot with
      | some nb => nb.IPXE.isSome
      | none => false))
  | _ => none

/-! ## Lemmas shared by the theorems -/

theorem generateCloudConfig_eq (D : Deps)
    (configURL hwAddress mode vip token password ip subnetMask gateway : String)
    (Nameservers SSHKeys : List String) (bondOptions : Option GoMap)
    (imageURL harvesterVersion webhookURL hwName hwNamespace m : String)
    (hm : D.yamlMarshal (cloudConfigDocument D.DefaultEndpointPort configURL hwAddress mode vip
      token password ip subnetMask gateway Nameservers SSHKeys bondOptions imageURL
      harvesterVersion webhookURL hwName hwNamespace) = .ok m) :
    generateCloudConfig D configURL hwAddress mode vip token password ip subnetMask gateway
      Nameservers SSHKeys bondOptions imageURL harvesterVersion webhookURL hwName hwNamespace
      = (m, none) := by
  simp [generateCloudConfig, hm]

theorem generateCloudConfig_ok_inv (D : Deps)
    (configURL hwAddress mode vip token password ip subnetMask gateway : String)
    (Nameservers SSHKeys : List String) (bondOptions : Option GoMap)
    (imageURL harvesterVersion webhookURL hwName hwNamespace m : String)
    (h : generateCloudConfig D configURL hwAddress mode vip token password ip subnetMask gateway
      Nameservers SSHKeys bondOptions imageURL harvesterVersion webhookURL hwName hwNamespace
      = (m, none)) :
    D.yamlMarshal (cloudConfigDocument D.DefaultEndpointPort configURL hwAddress mode vip
      token password ip subnetMask gateway Nameservers SSHKeys bondOptions imageURL
      harvesterVersion webhookURL hwName hwNamespace) = .ok m := by
  unfold generateCloudConfig at h
  split at h
  · next hcBytes hok => simp at h; rw [hok, h]
  · simp at h

/-- The interfaces of the descriptor literal after the boot script has been attached. -/
theorem attachIPXE_hardwareLiteral (script : String) (i : Inventory) (c : Cluster) (m : String) :
    attachIPXE script (hardwareLiteral i c m).Spec.Interfaces =
      .returned
        [{ Netboot := some { AllowPXE := some true, AllowWorkflow := some true,
                             IPXE := some { URL := "", Contents := script } }
           DHCP := some
             { MAC := i.Spec.ManagementInterfaceMacAddress
               Hostname := i.Name ++ "-" ++ i.Namespace
               LeaseTime := defaultLeaseTime
               Arch := defaultArch
               UEFI := true
               IP := some
                 { Address := i.Status.Address
                   Netmask := i.Status.Netmask
                   Gateway := i.Status.Gateway }
               NameServers := c.Spec.ClusterConfig.Nameservers } }] := by
  simp [attachIPXE, hardwareLiteral]

/-- What a successful call of `GenerateHWRequest` has computed. -/
theorem GenerateHWRequest_ok_inv {D : Deps} {i : Inventory} {c : Cluster}
    {seederDeploymentService tinkStackService : Service} {hw : Hardware}
    (h : GenerateHWRequest D i c seederDeploymentService tinkStackService
      = .returned (some hw, none)) :
    ∃ ingressIP m,
      resolvedIngressIP D seederDeploymentService = some ingressIP ∧ ingressIP ≠ "" ∧
      D.yamlMarshal (embeddedDocument D i c ingressIP) = .ok m ∧
      ((HasPrefix c.Spec.HarvesterVersion v11Prefix = false ∧ hw = hardwareLiteral i c m) ∨
       (HasPrefix c.Spec.HarvesterVersion v11Prefix = true ∧
         ∃ e itfs, tinkStackService.Status.LoadBalancer.Ingress[0]? = some e ∧
           attachIPXE (hwIPXEScript D i c e.IP).1 (hardwareLiteral i c m).Spec.Interfaces
             = .returned itfs ∧
           hw = { hardwareLiteral i c m with
                  Spec := { (hardwareLiteral i c m).Spec with Interfaces := itfs } })) := by
  unfold GenerateHWRequest at h
  simp only [] at h
  split at h
  · simp at h
  · rename_i hguard
    split at h
    · simp at h
    · rename_i ingressIP hres
      split at h
      · simp at h
      · rename_i hne
        split at h
        · simp at h
        · rename_i m hgen
          have hresolved : resolvedIngressIP D seederDeploymentService = some ingressIP := by
            unfold resolvedIngressIP
            split at hres
            · rename_i hen
              rw [if_pos hen]
              split at hres
              · rename_i e he
                simp only [Outcome.returned.injEq] at hres
                rw [he]; simp [hres]
              · simp at hres
            · rename_i hen
              rw [if_neg hen]
              simp only [Outcome.returned.injEq] at hres
              rw [hres]
          have hdoc := generateCloudConfig_ok_inv _ _ _ _ _ _ _ _ _ _ _ _ _ _ _ _ _ _ _ hgen
          refine ⟨ingressIP, m, hresolved, hne, hdoc, ?_⟩
          split at h
          · rename_i hpre
            right
            refine ⟨hpre, ?_⟩
            split at h
            · simp at h
            · rename_i e he
              split at h
              · simp at h
              · rename_i script hscript
                split at h
                · simp at h
                · rename_i itfs hitfs
                  have hs : (hwIPXEScript D i c e.IP).1 = script := by
                    unfold hwIPXEScript
                    rw [hscript]
                  simp only [Outcome.returned.injEq, Prod.mk.injEq, Option.some.injEq,
                    and_true] at h
                  exact ⟨e, itfs, he, by rw [hs]; exact hitfs, h.symm⟩
          · rename_i hpre
            left
            simp only [Outcome.returned.injEq, Prod.mk.injEq, Option.some.injEq,
              and_true] at h
            exact ⟨by simpa using hpre, h.symm⟩

/-- Every field of the descriptor that a successful call of `GenerateHWRequest`
returns; `ipxe` is the inline boot script of the interface, present exactly in
the legacy branch. -/
theorem GenerateHWRequest_ok_fields {D : Deps} {i : Inventory} {c : Cluster}
    {seederDeploymentService tinkStackService : Service} {hw : Hardware}
    (h : GenerateHWRequest D i c seederDeploymentService tinkStackService
      = .returned (some hw, none)) :
    ∃ (ingressIP m : String) (ipxe : Option IPXE),
      resolvedIngressIP D seederDeploymentService = some ingressIP ∧ ingressIP ≠ "" ∧
      D.yamlMarshal (embeddedDocument D i c ingressIP) = .ok m ∧
      hw =
        { Name := i.Name
          Namespace := i.Namespace
          Spec :=
            { UserData := some m
              Interfaces :=
                [{ Netboot := some { AllowPXE := some true, AllowWorkflow := some true,
                                     IPXE := ipxe }
                   DHCP := some
                     { MAC := i.Spec.ManagementInterfaceMacAddress
                       Hostname := i.Name ++ "-" ++ i.Namespace
                       LeaseTime := 86400
                       Arch := "x86_64"
                       UEFI := true
                       IP := some
                         { Address := i.Status.Address
                           Netmask := i.Status.Netmask
                           Gateway := i.Status.Gateway }
                       NameServers := c.Spec.ClusterConfig.Nameservers } }]
              Disks := [{ Device := i.Spec.PrimaryDisk }]
              Metadata := some
                { Facility := some { FacilityCode := "on_prem" }
                  Instance := some
                    { OperatingSystem := some
                        { Version := c.Spec.HarvesterVersion
                          Distro := "harvester" } } } } } ∧
      ((HasPrefix c.Spec.HarvesterVersion v11Prefix = false ∧ ipxe = none) ∨
       (HasPrefix c.Spec.HarvesterVersion v11Prefix = true ∧
         ∃ e, tinkStackService.Status.LoadBalancer.Ingress[0]? = some e ∧
           ipxe = some { URL := "", Contents := (hwIPXEScript D i c e.IP).1 })) := by
  obtain ⟨ingressIP, m, hres, hne, hdoc, hcases⟩ := GenerateHWRequest_ok_inv h
  rcases hcases with ⟨hpre, hhw⟩ | ⟨hpre, e, itfs, he, hitfs, hhw⟩
  · refine ⟨ingressIP, m, none, hres, hne, hdoc, ?_, Or.inl ⟨hpre, rfl⟩⟩
    rw [hhw]
    rfl
  · refine ⟨ingressIP, m, some { URL := "", Contents := (hwIPXEScript D i c e.IP).1 },
      hres, hne, hdoc, ?_, Or.inr ⟨hpre, e, he, rfl⟩⟩
    rw [attachIPXE_hardwareLiteral] at hitfs
    simp only [Outcome.returned.injEq] at hitfs
    rw [hhw, ← hitfs]
    rfl

/-! ## Field-by-field reading of the configuration document -/

theorem cloudConfigDocument_Vip (port : Int)
    (configURL hwAddress mode vip token password ip subnetMask gateway : String)
    (Nameservers SSHKeys : List String) (bondOptions : Option GoMap)
    (imageURL harvesterVersion webhookURL hwName hwNamespace : String) :
    (cloudConfigDocument port configURL hwAddress mode vip token password ip subnetMask gateway
      Nameservers SSHKeys bondOptions imageURL harvesterVersion webhookURL hwName
      hwNamespace).Install.Vip =
      if mode = "join" then "" else vip := by
  unfold cloudConfigDocument
  by_cases h1 : mode = "join" <;>
    by_cases h2 : HasPrefix harvesterVersion v11Prefix = true <;>
      simp [h1, h2, NewHarvesterConfig]

theorem cloudConfigDocument_VipMode (port : Int)
    (configURL hwAddress mode vip token password ip subnetMask gateway : String)
    (Nameservers SSHKeys : List String) (bondOptions : Option GoMap)
    (imageURL harvesterVersion webhookURL hwName hwNamespace : String) :
    (cloudConfigDocument port configURL hwAddress mode vip token password ip subnetMask gateway
      Nameservers SSHKeys bondOptions imageURL harvesterVersion webhookURL hwName
      hwNamespace).Install.VipMode =
      if mode = "join" then "" else "static" := by
  unfold cloudConfigDocument
  by_cases h1 : mode = "join" <;>
    by_cases h2 : HasPrefix harvesterVersion v11Prefix = true <;>
      simp [h1, h2, NewHarvesterConfig]

theorem cloudConfigDocument_ServerURL (port : Int)
    (configURL hwAddress mode vip token password ip subnetMask gateway : String)
    (Nameservers SSHKeys : List String) (bondOptions : Option GoMap)
    (imageURL harvesterVersion webhookURL hwName hwNamespace : String) :
    (cloudConfigDocument port configURL hwAddress mode vip token password ip subnetMask gateway
      Nameservers SSHKeys bondOptions imageURL harvesterVersion webhookURL hwName
      hwNamespace).ServerURL =
      if mode = "join" then "https://" ++ vip ++ ":443" else "" := by
  unfold cloudConfigDocument
  by_cases h1 : mode = "join" <;>
    by_cases h2 : HasPrefix harvesterVersion v11Prefix = true <;>
      simp [h1, h2, NewHarvesterConfig]

theorem cloudConfigDocument_ConfigURL (port : Int)
    (configURL hwAddress mode vip token password ip subnetMask gateway : String)
    (Nameservers SSHKeys : List String) (bondOptions : Option GoMap)
    (imageURL harvesterVersion webhookURL hwName hwNamespace : String) :
    (cloudConfigDocument port configURL hwAddress mode vip token password ip subnetMask gateway
      Nameservers SSHKeys bondOptions imageURL harvesterVersion webhookURL hwName
      hwNamespace).Install.ConfigURL =
      if HasPrefix harvesterVersion v11Prefix = true then "" else configURL := by
  unfold cloudConfigDocument
  by_cases h1 : mode = "join" <;>
    by_cases h2 : HasPrefix harvesterVersion v11Prefix = true <;>
      simp [h1, h2, NewHarvesterConfig]

theorem cloudConfigDocument_ISOURL (port : Int)
    (configURL hwAddress mode vip token password ip subnetMask gateway : String)
    (Nameservers SSHKeys : List String) (bondOptions : Option GoMap)
    (imageURL harvesterVersion webhookURL hwName hwNamespace : String) :
    (cloudConfigDocument port configURL hwAddress mode vip token password ip subnetMask gateway
      Nameservers SSHKeys bondOptions imageURL harvesterVersion webhookURL hwName
      hwNamespace).Install.ISOURL =
      if HasPrefix harvesterVersion v11Prefix = true then
        imageURL ++ "/" ++ harvesterVersion ++ "/harvester-" ++ harvesterVersion ++ "-amd64.iso"
      else "" := by
  unfold cloudConfigDocument
  by_cases h1 : mode = "join" <;>
    by_cases h2 : HasPrefix harvesterVersion v11Prefix = true <;>
      simp [h1, h2, NewHarvesterConfig]

theorem cloudConfigDocument_Webhooks (port : Int)
    (configURL hwAddress mode vip token password ip subnetMask gateway : String)
    (Nameservers SSHKeys : List String) (bondOptions : Option GoMap)
    (imageURL harvesterVersion webhookURL hwName hwNamespace : String) :
    (cloudConfigDocument port configURL hwAddress mode vip token password ip subnetMask gateway
      Nameservers SSHKeys bondOptions imageURL harvesterVersion webhookURL hwName
      hwNamespace).Install.Webhooks =
      if HasPrefix harvesterVersion v11Prefix = true then
        [{ Event := defaultEvent
           Method := defaultMethod
           URL := "http://" ++ webhookURL ++ ":" ++ toString port ++ "/disable/" ++
             hwNamespace ++ "/" ++ hwName }]
      else [] := by
  unfold cloudConfigDocument
  by_cases h1 : mode = "join" <;>
    by_cases h2 : HasPrefix harvesterVersion v11Prefix = true <;>
      simp [h1, h2, NewHarvesterConfig]

theorem cloudConfigDocument_ManagementInterface (port : Int)
    (configURL hwAddress mode vip token password ip subnetMask gateway : String)
    (Nameservers SSHKeys : List String) (bondOptions : Option GoMap)
    (imageURL harvesterVersion webhookURL hwName hwNamespace : String) :
    (cloudConfigDocument port configURL hwAddress mode vip token password ip subnetMask gateway
      Nameservers SSHKeys bondOptions imageURL harvesterVersion webhookURL hwName
      hwNamespace).Install.ManagementInterface =
      { Method := "static"
        IP := ip
        SubnetMask := subnetMask
        Gateway := gateway
        DefaultRoute := true
        Interfaces := [{ HwAddr := hwAddress }]
        BondOptions := bondOptions } := by
  unfold cloudConfigDocument
  by_cases h1 : mode = "join" <;>
    by_cases h2 : HasPrefix harvesterVersion v11Prefix = true <;>
      simp [h1, h2, NewHarvesterConfig]

theorem cloudConfigDocument_Mode (port : Int)
    (configURL hwAddress mode vip token password ip subnetMask gateway : String)
    (Nameservers SSHKeys : List String) (bondOptions : Option GoMap)
    (imageURL harvesterVersion webhookURL hwName hwNamespace : String) :
    (cloudConfigDocument port configURL hwAddress mode vip token password ip subnetMask gateway
      Nameservers SSHKeys bondOptions imageURL harvesterVersion webhookURL hwName
      hwNamespace).Install.Mode =
      mode := by
  unfold cloudConfigDocument
  by_cases h1 : mode = "join" <;>
    by_cases h2 : HasPrefix harvesterVersion v11Prefix = true <;>
      simp [h1, h2, NewHarvesterConfig]

/-! ## The install mode: server URL against virtual IP -/

theorem serverURL_ne_empty (vip : String) : "https://" ++ vip ++ ":443" ≠ "" := by
  intro h
  have hl := congrArg String.length h
  simp only [String.length_append] at hl
  have h4 : (":443" : String).length = 4 := by decide
  have h0 : ("" : String).length = 0 := by decide
  omega

/-- C1, the claim as stated fails: a call with mode "create" whose cluster
virtual address is the empty string returns without error, and the document it
serializes has an empty virtual-IP field. -/
theorem generateCloudConfig_create_vip_empty :
    (generateCloudConfig (sampleDeps "false" "10.0.0.5") "http://endpoint/node.yaml"
      "ab:cd:ef:gh:ij:kl" "create" "" "token" "password" "192.168.1.101" "255.255.255.0"
      "192.168.1.1" ["8.8.8.8"] ["ssh-key 1", "ssh-key 2"] none "" "v1.2.0" "10.0.0.5" "node"
      "default").2 = none ∧
    (cloudConfigDocument 9090 "http://endpoint/node.yaml"
      "ab:cd:ef:gh:ij:kl" "create" "" "token" "password" "192.168.1.101" "255.255.255.0"
      "192.168.1.1" ["8.8.8.8"] ["ssh-key 1", "ssh-key 2"] none "" "v1.2.0" "10.0.0.5" "node"
      "default").Install.Vip = "" := by
  constructor <;> rfl

/-- C1 as amended: for every call of `generateCloudConfig`, the returned string
is the serialization of a document which, for mode "join", has an empty
virtual-IP field and the non-empty server URL `https://<vip>:443`, and, for mode
"create", has the virtual-IP field equal to the `vip` argument (so non-empty
exactly when that argument is), VipMode "static" and an empty server URL. -/
theorem generateCloudConfig_mode_fields (D : Deps)
    (configURL hwAddress mode vip token password ip subnetMask gateway : String)
    (Nameservers SSHKeys : List String) (bondOptions : Option GoMap)
    (imageURL harvesterVersion webhookURL hwName hwNamespace : String) :
    ∃ doc : HarvesterConfig,
      doc = cloudConfigDocument D.DefaultEndpointPort configURL hwAddress mode vip token password
        ip subnetMask gateway Nameservers SSHKeys bondOptions imageURL harvesterVersion
        webhookURL hwName hwNamespace ∧
      (∀ m, D.yamlMarshal doc = .ok m →
        generateCloudConfig D configURL hwAddress mode vip token password ip subnetMask gateway
          Nameservers SSHKeys bondOptions imageURL harvesterVersion webhookURL hwName
          hwNamespace = (m, none)) ∧
      (mode = "join" →
        doc.Install.Vip = "" ∧ doc.ServerURL = "https://" ++ vip ++ ":443" ∧
        doc.ServerURL ≠ "") ∧
      (mode = "create" →
        doc.Install.Vip = vip ∧ (doc.Install.Vip ≠ "" ↔ vip ≠ "") ∧
        doc.Install.VipMode = "static" ∧ doc.ServerURL = "") := by
  refine ⟨_, rfl, ?_, ?_, ?_⟩
  · intro m hm
    exact generateCloudConfig_eq _ _ _ _ _ _ _ _ _ _ _ _ _ _ _ _ _ _ _ hm
  · intro hmode
    subst hmode
    have hne := serverURL_ne_empty vip
    rw [cloudConfigDocument_Vip, cloudConfigDocument_ServerURL]
    simp [hne]
  · intro hmode
    subst hmode
    rw [cloudConfigDocument_Vip, cloudConfigDocument_ServerURL, cloudConfigDocument_VipMode]
    simp

/-- The two calls of the package's tests: mode "join" and mode "create" with the
virtual address 192.168.1.100. -/
theorem generateCloudConfig_mode_fields_witness :
    (∃ doc : HarvesterConfig,
      doc = cloudConfigDocument 9090 "http://endpoint/node.yaml" "ab:cd:ef:gh:ij:kl" "join"
        "192.168.1.100" "token" "password" "192.168.1.101" "255.255.255.0" "192.168.1.1"
        ["8.8.8.8"] ["ssh-key 1", "ssh-key 2"] none "" "v1.2.0" "10.0.0.5" "node" "default" ∧
      doc.Install.Vip = "" ∧ doc.ServerURL = "https://192.168.1.100:443") ∧
    (∃ doc : HarvesterConfig,
      doc = cloudConfigDocument 9090 "http://endpoint/node.yaml" "ab:cd:ef:gh:ij:kl" "create"
        "192.168.1.100" "token" "password" "192.168.1.101" "255.255.255.0" "192.168.1.1"
        ["8.8.8.8"] ["ssh-key 1", "ssh-key 2"] none "" "v1.2.0" "10.0.0.5" "node" "default" ∧
      doc.Install.Vip = "192.168.1.100" ∧ doc.ServerURL = "") := by
  constructor
  · obtain ⟨doc, hdoc, _, hjoin, _⟩ :=
      generateCloudConfig_mode_fields (sampleDeps "false" "10.0.0.5") "http://endpoint/node.yaml"
        "ab:cd:ef:gh:ij:kl" "join" "192.168.1.100" "token" "password" "192.168.1.101"
        "255.255.255.0" "192.168.1.1" ["8.8.8.8"] ["ssh-key 1", "ssh-key 2"] none ""
        "v1.2.0" "10.0.0.5" "node" "default"
    exact ⟨doc, hdoc, (hjoin rfl).1, (hjoin rfl).2.1⟩
  · obtain ⟨doc, hdoc, _, _, hcreate⟩ :=
      generateCloudConfig_mode_fields (sampleDeps "false" "10.0.0.5") "http://endpoint/node.yaml"
        "ab:cd:ef:gh:ij:kl" "create" "192.168.1.100" "token" "password" "192.168.1.101"
        "255.255.255.0" "192.168.1.1" ["8.8.8.8"] ["ssh-key 1", "ssh-key 2"] none ""
        "v1.2.0" "10.0.0.5" "node" "default"
    exact ⟨doc, hdoc, (hcreate rfl).1, (hcreate rfl).2.2.2⟩

/-! ## The version branch of the configuration document -/

/-- C2: for every call of `generateCloudConfig`, the returned string is the
serialization of a document which, when the version has the prefix "v1.1", has
an empty config URL, the ISO URL `<imageURL>/<version>/harvester-<version>-amd64.iso`
and exactly one webhook, of method "PUT"; and which otherwise has the config URL
equal to the `configURL` argument and no webhook. -/
theorem generateCloudConfig_version_branch (D : Deps)
    (configURL hwAddress mode vip token password ip subnetMask gateway : String)
    (Nameservers SSHKeys : List String) (bondOptions : Option GoMap)
    (imageURL harvesterVersion webhookURL hwName hwNamespace : String) :
    ∃ doc : HarvesterConfig,
      doc = cloudConfigDocument D.DefaultEndpointPort configURL hwAddress mode vip token password
        ip subnetMask gateway Nameservers SSHKeys bondOptions imageURL harvesterVersion
        webhookURL hwName hwNamespace ∧
      (∀ m, D.yamlMarshal doc = .ok m →
        generateCloudConfig D configURL hwAddress mode vip token password ip subnetMask gateway
          Nameservers SSHKeys bondOptions imageURL harvesterVersion webhookURL hwName
          hwNamespace = (m, none)) ∧
      (HasPrefix harvesterVersion "v1.1" = true →
        doc.Install.ConfigURL = "" ∧
        doc.Install.ISOURL =
          imageURL ++ "/" ++ harvesterVersion ++ "/harvester-" ++ harvesterVersion ++
            "-amd64.iso" ∧
        ∃ w, doc.Install.Webhooks = [w] ∧ w.Method = "PUT") ∧
      (HasPrefix harvesterVersion "v1.1" = false →
        doc.Install.ConfigURL = configURL ∧ doc.Install.Webhooks = []) := by
  refine ⟨_, rfl, ?_, ?_, ?_⟩
  · intro m hm
    exact generateCloudConfig_eq _ _ _ _ _ _ _ _ _ _ _ _ _ _ _ _ _ _ _ hm
  · intro hpre
    have hpre' : HasPrefix harvesterVersion v11Prefix = true := hpre
    rw [cloudConfigDocument_ConfigURL, cloudConfigDocument_ISOURL, cloudConfigDocument_Webhooks]
    simp [hpre', defaultMethod]
  · intro hpre
    have hpre' : ¬ (HasPrefix harvesterVersion v11Prefix = true) := by
      simpa [v11Prefix] using hpre
    rw [cloudConfigDocument_ConfigURL, cloudConfigDocument_Webhooks]
    simp [hpre']

/-- A legacy call (version "v1.1.2") and a modern call (version "v1.2.0"). -/
theorem generateCloudConfig_version_branch_witness :
    (∃ doc : HarvesterConfig,
      doc = cloudConfigDocument 9090 "http://endpoint/node.yaml" "ab:cd:ef:gh:ij:kl" "join"
        "192.168.1.100" "token" "password" "192.168.1.101" "255.255.255.0" "192.168.1.1"
        ["8.8.8.8"] ["ssh-key 1", "ssh-key 2"] none "http://images" "v1.1.2" "10.0.0.5" "node"
        "default" ∧
      doc.Install.ConfigURL = "" ∧
      doc.Install.ISOURL = "http://images/v1.1.2/harvester-v1.1.2-amd64.iso" ∧
      ∃ w, doc.Install.Webhooks = [w] ∧ w.Method = "PUT") ∧
    (∃ doc : HarvesterConfig,
      doc = cloudConfigDocument 9090 "http://endpoint/node.yaml" "ab:cd:ef:gh:ij:kl" "join"
        "192.168.1.100" "token" "password" "192.168.1.101" "255.255.255.0" "192.168.1.1"
        ["8.8.8.8"] ["ssh-key 1", "ssh-key 2"] none "http://images" "v1.2.0" "10.0.0.5" "node"
        "default" ∧
      doc.Install.ConfigURL = "http://endpoint/node.yaml" ∧ doc.Install.Webhooks = []) := by
  constructor
  · obtain ⟨doc, hdoc, _, hlegacy, _⟩ :=
      generateCloudConfig_version_branch (sampleDeps "false" "10.0.0.5")
        "http://endpoint/node.yaml" "ab:cd:ef:gh:ij:kl" "join" "192.168.1.100" "token"
        "password" "192.168.1.101" "255.255.255.0" "192.168.1.1" ["8.8.8.8"]
        ["ssh-key 1", "ssh-key 2"] none "http://images" "v1.1.2" "10.0.0.5" "node" "default"
    exact ⟨doc, hdoc, hlegacy (by decide)⟩
  · obtain ⟨doc, hdoc, _, _, hmodern⟩ :=
      generateCloudConfig_version_branch (sampleDeps "false" "10.0.0.5")
        "http://endpoint/node.yaml" "ab:cd:ef:gh:ij:kl" "join" "192.168.1.100" "token"
        "password" "192.168.1.101" "255.255.255.0" "192.168.1.1" ["8.8.8.8"]
        ["ssh-key 1", "ssh-key 2"] none "http://images" "v1.2.0" "10.0.0.5" "node" "default"
    exact ⟨doc, hdoc, hmodern (by decide)⟩

/-! ## Bonding options -/

/-- The bonding block of the embedded document, for every successful call: the
defaults when the cluster has no bonding options, and otherwise the empty map
that `make` created, since the cluster's map is never read. -/
theorem GenerateHWRequest_bondOptions (D : Deps) (i : Inventory) (c : Cluster)
    (seederDeploymentService tinkStackService : Service) (hw : Hardware)
    (h : GenerateHWRequest D i c seederDeploymentService tinkStackService
      = .returned (some hw, none)) :
    ∃ ingressIP m,
      hw.Spec.UserData = some m ∧
      D.yamlMarshal (embeddedDocument D i c ingressIP) = .ok m ∧
      (embeddedDocument D i c ingressIP).Install.ManagementInterface.BondOptions =
        some (if c.Spec.BondOptions = none then [("mode", "balance-tlb"), ("miimon", "100")]
              else []) := by
  obtain ⟨ingressIP, m, ipxe, _, _, hdoc, hhw, _⟩ := GenerateHWRequest_ok_fields h
  refine ⟨ingressIP, m, by rw [hhw], hdoc, ?_⟩
  unfold embeddedDocument
  rw [cloudConfigDocument_ManagementInterface]
  by_cases hb : c.Spec.BondOptions = none <;> simp [hb, mapAssign]

/-- C3, the failing input: for a cluster whose bonding options are
`mode=802.3ad, miimon=50`, the call succeeds and the document serialized into
the descriptor's user data has an empty bonding block, not the cluster's map. -/
theorem GenerateHWRequest_bond_override_dropped :
    ∃ hw m,
      GenerateHWRequest (sampleDeps "false" "10.0.0.5") sampleInventory
        (sampleCluster "v1.2.0" (some [("mode", "802.3ad"), ("miimon", "50")]))
        sampleSeederService sampleTinkService = .returned (some hw, none) ∧
      hw.Spec.UserData = some m ∧
      sampleMarshal (embeddedDocument (sampleDeps "false" "10.0.0.5") sampleInventory
        (sampleCluster "v1.2.0" (some [("mode", "802.3ad"), ("miimon", "50")])) "10.0.0.5")
        = .ok m ∧
      (embeddedDocument (sampleDeps "false" "10.0.0.5") sampleInventory
        (sampleCluster "v1.2.0" (some [("mode", "802.3ad"), ("miimon", "50")])) "10.0.0.5"
        ).Install.ManagementInterface.BondOptions = some [] ∧
      (sampleCluster "v1.2.0" (some [("mode", "802.3ad"), ("miimon", "50")])).Spec.BondOptions
        = some [("mode", "802.3ad"), ("miimon", "50")] :=
  ⟨hardwareLiteral sampleInventory
      (sampleCluster "v1.2.0" (some [("mode", "802.3ad"), ("miimon", "50")]))
      "token: token\nserver_url: \nmode: create\nvip: 192.168.1.100\nconfig_url: http://endpoint\niso_url: \nbond_options: \n",
    "token: token\nserver_url: \nmode: create\nvip: 192.168.1.100\nconfig_url: http://endpoint\niso_url: \nbond_options: \n",
    by rfl, by rfl, by rfl, by rfl, by rfl⟩

/-! ## Endpoint resolution failures -/

/-- C4, the claim as stated fails: with ingress mode disabled and an empty
literal address, the call returns nothing to its caller, neither a descriptor
nor an error: it panics. -/
theorem GenerateHWRequest_empty_literal_no_return :
    GenerateHWRequest (sampleDeps "false" "") sampleInventory (sampleCluster "v1.2.0" none)
      sampleSeederService sampleTinkService = .panicked "Ingress IP was unset" ∧
    ¬ ∃ r, GenerateHWRequest (sampleDeps "false" "") sampleInventory
      (sampleCluster "v1.2.0" none) sampleSeederService sampleTinkService = .returned r := by
  have h : GenerateHWRequest (sampleDeps "false" "") sampleInventory
      (sampleCluster "v1.2.0" none) sampleSeederService sampleTinkService
      = .panicked "Ingress IP was unset" := by rfl
  refine ⟨h, ?_⟩
  rintro ⟨r, hr⟩
  rw [h] at hr
  cases hr

/-- C4 as amended: when ingress mode is enabled and the seeder service has no
load-balancer ingress entry, the call returns the not-ready error and no
descriptor; when ingress mode is disabled and the literal address is empty, the
call panics with "Ingress IP was unset" and returns nothing, which differs from
the returned not-ready error. -/
theorem GenerateHWRequest_endpoint_failures (D : Deps) (i : Inventory) (c : Cluster)
    (seederDeploymentService tinkStackService : Service) :
    (D.Getenv "SEEDER_ENDPOINT_INGRESS_ENABLED" = "true" →
      seederDeploymentService.Status.LoadBalancer.Ingress = [] →
      GenerateHWRequest D i c seederDeploymentService tinkStackService =
        .returned (none, some ("waiting for ingress to be populated on svc: " ++
          seederDeploymentService.Name))) ∧
    (D.Getenv "SEEDER_ENDPOINT_INGRESS_ENABLED" ≠ "true" →
      D.Getenv "SEEDER_ENDPOINT_INGRESS_IP" = "" →
      GenerateHWRequest D i c seederDeploymentService tinkStackService =
        .panicked "Ingress IP was unset" ∧
      ∀ r, GenerateHWRequest D i c seederDeploymentService tinkStackService ≠ .returned r) := by
  constructor
  · intro hen hempty
    unfold GenerateHWRequest
    simp [hen, hempty]
  · intro hen hip
    have hp : GenerateHWRequest D i c seederDeploymentService tinkStackService =
        .panicked "Ingress IP was unset" := by
      unfold GenerateHWRequest
      simp [hen, hip]
    refine ⟨hp, ?_⟩
    intro r hr
    rw [hp] at hr
    cases hr

/-- Ingress mode enabled with an empty ingress list, and ingress mode disabled
with an empty literal. -/
theorem GenerateHWRequest_endpoint_failures_witness :
    GenerateHWRequest (sampleDeps "true" "") sampleInventory (sampleCluster "v1.2.0" none)
      sampleSeederService sampleTinkService =
        .returned (none, some "waiting for ingress to be populated on svc: seeder") ∧
    GenerateHWRequest (sampleDeps "false" "") sampleInventory (sampleCluster "v1.2.0" none)
      sampleSeederService sampleTinkService = .panicked "Ingress IP was unset" :=
  ⟨(GenerateHWRequest_endpoint_failures (sampleDeps "true" "") sampleInventory
      (sampleCluster "v1.2.0" none) sampleSeederService sampleTinkService).1 (by rfl) (by rfl),
   ((GenerateHWRequest_endpoint_failures (sampleDeps "false" "") sampleInventory
      (sampleCluster "v1.2.0" none) sampleSeederService sampleTinkService).2
        (by decide) (by rfl)).1⟩

/-! ## The workflow descriptor -/

/-- C5: the template reference of the workflow is the node's name when the
cluster has no custom provisioning template, and the custom template when it
has one. -/
theorem GenerateWorkflow_templateRef (i : Inventory) (c : Cluster) :
    (c.Spec.ClusterConfig.CustomProvisioningTemplate = "" →
      (GenerateWorkflow i c).Spec.TemplateRef = i.Name) ∧
    (c.Spec.ClusterConfig.CustomProvisioningTemplate ≠ "" →
      (GenerateWorkflow i c).Spec.TemplateRef =
        c.Spec.ClusterConfig.CustomProvisioningTemplate) := by
  constructor
  · intro hc
    simp [GenerateWorkflow, hc]
  · intro hc
    simp [GenerateWorkflow, hc]

/-- The two cases of the package's workflow test. -/
theorem GenerateWorkflow_templateRef_witness :
    (GenerateWorkflow sampleTestNode (sampleTestCluster "")).Spec.TemplateRef = "test-node" ∧
    (GenerateWorkflow sampleTestNode (sampleTestCluster "override-template")).Spec.TemplateRef
      = "override-template" :=
  ⟨(GenerateWorkflow_templateRef sampleTestNode (sampleTestCluster "")).1 (by rfl),
   (GenerateWorkflow_templateRef sampleTestNode (sampleTestCluster "override-template")).2
     (by decide)⟩

/-- C7: the workflow carries the node's name and namespace, its hardware
reference is the node's name whatever the custom template, and its hardware map
has the single entry `device_1` valued with the node's management MAC address;
`GenerateWorkflow` is a total function, so it always produces this workflow. -/
theorem GenerateWorkflow_fields (i : Inventory) (c : Cluster) :
    (GenerateWorkflow i c).Name = i.Name ∧
    (GenerateWorkflow i c).Namespace = i.Namespace ∧
    (GenerateWorkflow i c).Spec.HardwareRef = i.Name ∧
    (GenerateWorkflow i c).Spec.HardwareMap =
      some [("device_1", i.Spec.ManagementInterfaceMacAddress)] := by
  unfold GenerateWorkflow
  by_cases hc : c.Spec.ClusterConfig.CustomProvisioningTemplate = "" <;> simp [hc]

/-! ## The hardware descriptor -/

/-- C6: a successful call returns a descriptor with exactly one interface, whose
DHCP MAC address is the node's management MAC address, and the workflow's
hardware map stores that same value under its interface key `device_1`. -/
theorem GenerateHWRequest_interface_mac (D : Deps) (i : Inventory) (c : Cluster)
    (seederDeploymentService tinkStackService : Service) (hw : Hardware)
    (h : GenerateHWRequest D i c seederDeploymentService tinkStackService
      = .returned (some hw, none)) :
    ∃ itf dhcp hm,
      hw.Spec.Interfaces = [itf] ∧ itf.DHCP = some dhcp ∧
      dhcp.MAC = i.Spec.ManagementInterfaceMacAddress ∧
      (GenerateWorkflow i c).Spec.HardwareMap = some hm ∧
      mapLookup hm "device_1" = some dhcp.MAC := by
  obtain ⟨ingressIP, m, ipxe, _, _, _, hhw, _⟩ := GenerateHWRequest_ok_fields h
  subst hhw
  refine ⟨_, _, [("device_1", i.Spec.ManagementInterfaceMacAddress)], rfl, rfl, rfl, ?_, ?_⟩
  · unfold GenerateWorkflow
    by_cases hc : c.Spec.ClusterConfig.CustomProvisioningTemplate = "" <;> simp [hc]
  · simp [mapLookup]

theorem GenerateHWRequest_interface_mac_witness :
    GenerateHWRequest (sampleDeps "false" "10.0.0.5") sampleInventory
      (sampleCluster "v1.2.0" none) sampleSeederService sampleTinkService
      = .returned (some sampleModernHardware, none) ∧
    ∃ itf dhcp hm,
      sampleModernHardware.Spec.Interfaces = [itf] ∧ itf.DHCP = some dhcp ∧
      dhcp.MAC = "xx:xx:xx:xx:xx" ∧
      (GenerateWorkflow sampleInventory (sampleCluster "v1.2.0" none)).Spec.HardwareMap
        = some hm ∧
      mapLookup hm "device_1" = some dhcp.MAC :=
  ⟨by rfl, GenerateHWRequest_interface_mac (sampleDeps "false" "10.0.0.5") sampleInventory
    (sampleCluster "v1.2.0" none) sampleSeederService sampleTinkService sampleModernHardware
    (by rfl)⟩

/-- C8: after a successful call, the IP address, netmask and gateway of the
descriptor's DHCP block are the node's, and so are the IP, subnet mask and
gateway of the management-interface block of the document serialized into the
user data; the descriptor has the node's name and namespace, so the workflow's
hardware reference equals the descriptor's name. -/
theorem GenerateHWRequest_shared_addresses (D : Deps) (i : Inventory) (c : Cluster)
    (seederDeploymentService tinkStackService : Service) (hw : Hardware)
    (h : GenerateHWRequest D i c seederDeploymentService tinkStackService
      = .returned (some hw, none)) :
    ∃ ingressIP m itf dhcp ip,
      hw.Spec.UserData = some m ∧
      D.yamlMarshal (embeddedDocument D i c ingressIP) = .ok m ∧
      hw.Spec.Interfaces = [itf] ∧ itf.DHCP = some dhcp ∧ dhcp.IP = some ip ∧
      ip.Address = i.Status.Address ∧ ip.Netmask = i.Status.Netmask ∧
      ip.Gateway = i.Status.Gateway ∧
      (embeddedDocument D i c ingressIP).Install.ManagementInterface.IP = ip.Address ∧
      (embeddedDocument D i c ingressIP).Install.ManagementInterface.SubnetMask = ip.Netmask ∧
      (embeddedDocument D i c ingressIP).Install.ManagementInterface.Gateway = ip.Gateway ∧
      hw.Name = i.Name ∧ hw.Namespace = i.Namespace ∧
      (GenerateWorkflow i c).Spec.HardwareRef = hw.Name := by
  obtain ⟨ingressIP, m, ipxe, _, _, hdoc, hhw, _⟩ := GenerateHWRequest_ok_fields h
  subst hhw
  refine ⟨ingressIP, m, _, _, _, rfl, hdoc, rfl, rfl, rfl, rfl, rfl, rfl, ?_, ?_, ?_, rfl, rfl,
    ?_⟩
  · unfold embeddedDocument
    rw [cloudConfigDocument_ManagementInterface]
  · unfold embeddedDocument
    rw [cloudConfigDocument_ManagementInterface]
  · unfold embeddedDocument
    rw [cloudConfigDocument_ManagementInterface]
  · unfold GenerateWorkflow
    by_cases hc : c.Spec.ClusterConfig.CustomProvisioningTemplate = "" <;> simp [hc]

theorem GenerateHWRequest_shared_addresses_witness :
    GenerateHWRequest (sampleDeps "false" "10.0.0.5") sampleInventory
      (sampleCluster "v1.2.0" none) sampleSeederService sampleTinkService
      = .returned (some sampleModernHardware, none) ∧
    ∃ ingressIP m itf dhcp ip,
      sampleModernHardware.Spec.UserData = some m ∧
      sampleMarshal (embeddedDocument (sampleDeps "false" "10.0.0.5") sampleInventory
        (sampleCluster "v1.2.0" none) ingressIP) = .ok m ∧
      sampleModernHardware.Spec.Interfaces = [itf] ∧ itf.DHCP = some dhcp ∧
      dhcp.IP = some ip ∧
      ip.Address = "192.168.1.129" ∧ ip.Netmask = "255.255.255.0" ∧
      ip.Gateway = "192.168.1.1" ∧
      (embeddedDocument (sampleDeps "false" "10.0.0.5") sampleInventory
        (sampleCluster "v1.2.0" none) ingressIP).Install.ManagementInterface.IP = ip.Address ∧
      (embeddedDocument (sampleDeps "false" "10.0.0.5") sampleInventory
        (sampleCluster "v1.2.0" none) ingressIP).Install.ManagementInterface.SubnetMask
          = ip.Netmask ∧
      (embeddedDocument (sampleDeps "false" "10.0.0.5") sampleInventory
        (sampleCluster "v1.2.0" none) ingressIP).Install.ManagementInterface.Gateway
          = ip.Gateway ∧
      sampleModernHardware.Name = "firstnode" ∧ sampleModernHardware.Namespace = "default" ∧
      (GenerateWorkflow sampleInventory (sampleCluster "v1.2.0" none)).Spec.HardwareRef
        = sampleModernHardware.Name :=
  ⟨by rfl, GenerateHWRequest_shared_addresses (sampleDeps "false" "10.0.0.5") sampleInventory
    (sampleCluster "v1.2.0" none) sampleSeederService sampleTinkService sampleModernHardware
    (by rfl)⟩

/-- C9: after a successful call, when the cluster version has the prefix "v1.1"
the descriptor has a single interface and every interface carries, as inline
netboot content, the script that `generateIPXEScript` renders from the cluster
version, the image URL, the Hegel endpoint built from the first ingress address
of the tink stack service, and the node's MAC, primary disk, address, netmask
and gateway; when the version lacks the prefix, no interface carries an inline
script. -/
theorem GenerateHWRequest_ipxe (D : Deps) (i : Inventory) (c : Cluster)
    (seederDeploymentService tinkStackService : Service) (hw : Hardware)
    (h : GenerateHWRequest D i c seederDeploymentService tinkStackService
      = .returned (some hw, none)) :
    hw.Spec.Interfaces.length = 1 ∧
    (HasPrefix c.Spec.HarvesterVersion "v1.1" = true →
      ∃ e, tinkStackService.Status.LoadBalancer.Ingress[0]? = some e ∧
        ∀ itf ∈ hw.Spec.Interfaces, ∃ nb ipxe,
          itf.Netboot = some nb ∧ nb.IPXE = some ipxe ∧
          (ipxe.Contents, (none : Option String)) =
            generateIPXEScript c.Spec.HarvesterVersion c.Spec.ImageURL
              ("http://" ++ e.IP ++ ":" ++ D.HegelDefaultPort ++ "/2009-04-04/user-data")
              i.Spec.ManagementInterfaceMacAddress i.Spec.PrimaryDisk i.Status.Address
              i.Status.Netmask i.Status.Gateway) ∧
    (HasPrefix c.Spec.HarvesterVersion "v1.1" = false →
      ∀ itf ∈ hw.Spec.Interfaces, ∃ nb, itf.Netboot = some nb ∧ nb.IPXE = none) := by
  obtain ⟨ingressIP, m, ipxe, _, _, _, hhw, hcases⟩ := GenerateHWRequest_ok_fields h
  subst hhw
  refine ⟨rfl, ?_, ?_⟩
  · intro hpre
    have hpre' : HasPrefix c.Spec.HarvesterVersion v11Prefix = true := hpre
    rcases hcases with ⟨hno, _⟩ | ⟨_, e, he, hipxe⟩
    · rw [hpre'] at hno
      cases hno
    · refine ⟨e, he, ?_⟩
      intro itf hitf
      simp only [List.mem_singleton] at hitf
      subst hitf
      subst hipxe
      exact ⟨_, _, rfl, rfl, rfl⟩
  · intro hpre
    have hpre' : HasPrefix c.Spec.HarvesterVersion v11Prefix = false := hpre
    rcases hcases with ⟨_, hipxe⟩ | ⟨hyes, _⟩
    · intro itf hitf
      simp only [List.mem_singleton] at hitf
      subst hitf
      subst hipxe
      exact ⟨_, rfl, rfl⟩
    · rw [hpre'] at hyes
      cases hyes

/-- A legacy cluster (version "v1.1.2") whose tink stack service has the ingress
address 10.0.0.9, and a modern cluster (version "v1.2.0"). -/
theorem GenerateHWRequest_ipxe_witness :
    (GenerateHWRequest (sampleDeps "false" "10.0.0.5") sampleInventory
      (sampleCluster "v1.1.2" none) sampleSeederService sampleTinkService
      = .returned (some sampleLegacyHardware, none) ∧
     ∃ e, sampleTinkService.Status.LoadBalancer.Ingress[0]? = some e ∧
        ∀ itf ∈ sampleLegacyHardware.Spec.Interfaces, ∃ nb ipxe,
          itf.Netboot = some nb ∧ nb.IPXE = some ipxe ∧
          (ipxe.Contents, (none : Option String)) =
            generateIPXEScript "v1.1.2" "http://images"
              ("http://" ++ e.IP ++ ":" ++ "50061" ++ "/2009-04-04/user-data")
              "xx:xx:xx:xx:xx" "/dev/sda" "192.168.1.129" "255.255.255.0" "192.168.1.1") ∧
    (GenerateHWRequest (sampleDeps "false" "10.0.0.5") sampleInventory
      (sampleCluster "v1.2.0" none) sampleSeederService sampleTinkService
      = .returned (some sampleModernHardware, none) ∧
     ∀ itf ∈ sampleModernHardware.Spec.Interfaces, ∃ nb,
       itf.Netboot = some nb ∧ nb.IPXE = none) :=
  ⟨⟨by rfl, (GenerateHWRequest_ipxe (sampleDeps "false" "10.0.0.5") sampleInventory
      (sampleCluster "v1.1.2" none) sampleSeederService sampleTinkService sampleLegacyHardware
      (by rfl)).2.1 (by decide)⟩,
   ⟨by rfl, (GenerateHWRequest_ipxe (sampleDeps "false" "10.0.0.5") sampleInventory
      (sampleCluster "v1.2.0" none) sampleSeederService sampleTinkService sampleModernHardware
      (by rfl)).2.2 (by decide)⟩⟩

/-- C10: after a successful call, the netboot block of the interface allows PXE
and workflow, and its DHCP block has lease time 86400, architecture "x86_64",
UEFI set, the node's management MAC address, the hostname
`<name>-<namespace>`, and the cluster's nameserver list. -/
theorem GenerateHWRequest_netboot_dhcp (D : Deps) (i : Inventory) (c : Cluster)
    (seederDeploymentService tinkStackService : Service) (hw : Hardware)
    (h : GenerateHWRequest D i c seederDeploymentService tinkStackService
      = .returned (some hw, none)) :
    ∃ itf nb dhcp,
      hw.Spec.Interfaces = [itf] ∧ itf.Netboot = some nb ∧ itf.DHCP = some dhcp ∧
      nb.AllowPXE = some true ∧ nb.AllowWorkflow = some true ∧
      dhcp.LeaseTime = 86400 ∧ dhcp.Arch = "x86_64" ∧ dhcp.UEFI = true ∧
      dhcp.MAC = i.Spec.ManagementInterfaceMacAddress ∧
      dhcp.Hostname = i.Name ++ "-" ++ i.Namespace ∧
      dhcp.NameServers = c.Spec.ClusterConfig.Nameservers := by
  obtain ⟨ingressIP, m, ipxe, _, _, _, hhw, _⟩ := GenerateHWRequest_ok_fields h
  subst hhw
  exact ⟨_, _, _, rfl, rfl, rfl, rfl, rfl, rfl, rfl, rfl, rfl, rfl, rfl⟩

theorem GenerateHWRequest_netboot_dhcp_witness :
    GenerateHWRequest (sampleDeps "false" "10.0.0.5") sampleInventory
      (sampleCluster "v1.2.0" none) sampleSeederService sampleTinkService
      = .returned (some sampleModernHardware, none) ∧
    ∃ itf nb dhcp,
      sampleModernHardware.Spec.Interfaces = [itf] ∧ itf.Netboot = some nb ∧
      itf.DHCP = some dhcp ∧
      nb.AllowPXE = some true ∧ nb.AllowWorkflow = some true ∧
      dhcp.LeaseTime = 86400 ∧ dhcp.Arch = "x86_64" ∧ dhcp.UEFI = true ∧
      dhcp.MAC = "xx:xx:xx:xx:xx" ∧
      dhcp.Hostname = "firstnode" ++ "-" ++ "default" ∧
      dhcp.NameServers = ["8.8.8.8", "8.8.4.4"] :=
  ⟨by rfl, GenerateHWRequest_netboot_dhcp (sampleDeps "false" "10.0.0.5") sampleInventory
    (sampleCluster "v1.2.0" none) sampleSeederService sampleTinkService sampleModernHardware
    (by rfl)⟩

/-! ## The fields of the configuration document that no branch changes -/

theorem cloudConfigDocument_SchemeVersion (port : Int)
    (configURL hwAddress mode vip token password ip subnetMask gateway : String)
    (Nameservers SSHKeys : List String) (bondOptions : Option GoMap)
    (imageURL harvesterVersion webhookURL hwName hwNamespace : String) :
    (cloudConfigDocument port configURL hwAddress mode vip token password ip subnetMask gateway
      Nameservers SSHKeys bondOptions imageURL harvesterVersion webhookURL hwName
      hwNamespace).SchemeVersion =
      1 := by
  unfold cloudConfigDocument
  by_cases h1 : mode = "join" <;>
    by_cases h2 : HasPrefix harvesterVersion v11Prefix = true <;>
      simp [h1, h2, NewHarvesterConfig]

theorem cloudConfigDocument_Token (port : Int)
    (configURL hwAddress mode vip token password ip subnetMask gateway : String)
    (Nameservers SSHKeys : List String) (bondOptions : Option GoMap)
    (imageURL harvesterVersion webhookURL hwName hwNamespace : String) :
    (cloudConfigDocument port configURL hwAddress mode vip token password ip subnetMask gateway
      Nameservers SSHKeys bondOptions imageURL harvesterVersion webhookURL hwName
      hwNamespace).Token =
      token := by
  unfold cloudConfigDocument
  by_cases h1 : mode = "join" <;>
    by_cases h2 : HasPrefix harvesterVersion v11Prefix = true <;>
      simp [h1, h2, NewHarvesterConfig]

theorem cloudConfigDocument_Automatic (port : Int)
    (configURL hwAddress mode vip token password ip subnetMask gateway : String)
    (Nameservers SSHKeys : List String) (bondOptions : Option GoMap)
    (imageURL harvesterVersion webhookURL hwName hwNamespace : String) :
    (cloudConfigDocument port configURL hwAddress mode vip token password ip subnetMask gateway
      Nameservers SSHKeys bondOptions imageURL harvesterVersion webhookURL hwName
      hwNamespace).Install.Automatic =
      true := by
  unfold cloudConfigDocument
  by_cases h1 : mode = "join" <;>
    by_cases h2 : HasPrefix harvesterVersion v11Prefix = true <;>
      simp [h1, h2, NewHarvesterConfig]

theorem cloudConfigDocument_OS (port : Int)
    (configURL hwAddress mode vip token password ip subnetMask gateway : String)
    (Nameservers SSHKeys : List String) (bondOptions : Option GoMap)
    (imageURL harvesterVersion webhookURL hwName hwNamespace : String) :
    (cloudConfigDocument port configURL hwAddress mode vip token password ip subnetMask gateway
      Nameservers SSHKeys bondOptions imageURL harvesterVersion webhookURL hwName
      hwNamespace).OS =
      { Password := password, DNSNameservers := Nameservers, SSHAuthorizedKeys := SSHKeys } := by
  unfold cloudConfigDocument
  by_cases h1 : mode = "join" <;>
    by_cases h2 : HasPrefix harvesterVersion v11Prefix = true <;>
      simp [h1, h2, NewHarvesterConfig]

/-- C13: for every call of `generateCloudConfig`, whatever the mode and the
version, the returned string is the serialization of a document with schema
version 1, the given token, automatic installation, the given mode, a
management-interface block with method "static", the given IP, subnet mask and
gateway, the default-route flag and exactly one interface whose hardware address
is `hwAddress`, the given DNS servers and SSH keys, and the given password. -/
theorem generateCloudConfig_fixed_fields (D : Deps)
    (configURL hwAddress mode vip token password ip subnetMask gateway : String)
    (Nameservers SSHKeys : List String) (bondOptions : Option GoMap)
    (imageURL harvesterVersion webhookURL hwName hwNamespace : String) :
    ∃ doc : HarvesterConfig,
      doc = cloudConfigDocument D.DefaultEndpointPort configURL hwAddress mode vip token password
        ip subnetMask gateway Nameservers SSHKeys bondOptions imageURL harvesterVersion
        webhookURL hwName hwNamespace ∧
      (∀ m, D.yamlMarshal doc = .ok m →
        generateCloudConfig D configURL hwAddress mode vip token password ip subnetMask gateway
          Nameservers SSHKeys bondOptions imageURL harvesterVersion webhookURL hwName
          hwNamespace = (m, none)) ∧
      doc.SchemeVersion = 1 ∧ doc.Token = token ∧
      doc.Install.Automatic = true ∧ doc.Install.Mode = mode ∧
      doc.Install.ManagementInterface.Method = "static" ∧
      doc.Install.ManagementInterface.IP = ip ∧
      doc.Install.ManagementInterface.SubnetMask = subnetMask ∧
      doc.Install.ManagementInterface.Gateway = gateway ∧
      doc.Install.ManagementInterface.DefaultRoute = true ∧
      doc.Install.ManagementInterface.Interfaces = [{ HwAddr := hwAddress }] ∧
      doc.OS.DNSNameservers = Nameservers ∧
      doc.OS.SSHAuthorizedKeys = SSHKeys ∧
      doc.OS.Password = password := by
  refine ⟨_, rfl, ?_, ?_, ?_, ?_, ?_, ?_, ?_, ?_, ?_, ?_, ?_, ?_, ?_, ?_⟩
  · intro m hm
    exact generateCloudConfig_eq _ _ _ _ _ _ _ _ _ _ _ _ _ _ _ _ _ _ _ hm
  · rw [cloudConfigDocument_SchemeVersion]
  · rw [cloudConfigDocument_Token]
  · rw [cloudConfigDocument_Automatic]
  · rw [cloudConfigDocument_Mode]
  · rw [cloudConfigDocument_ManagementInterface]
  · rw [cloudConfigDocument_ManagementInterface]
  · rw [cloudConfigDocument_ManagementInterface]
  · rw [cloudConfigDocument_ManagementInterface]
  · rw [cloudConfigDocument_ManagementInterface]
  · rw [cloudConfigDocument_ManagementInterface]
  · rw [cloudConfigDocument_OS]
  · rw [cloudConfigDocument_OS]
  · rw [cloudConfigDocument_OS]

/-! ## Disks, metadata and the completion webhook of the descriptor -/

/-- C11: after a successful call, the disk list of the descriptor has exactly
one element, whose device is the node's primary disk, and its metadata block has
the facility code "on_prem", the operating-system version equal to the cluster's
Harvester version, and the distribution tag "harvester". -/
theorem GenerateHWRequest_disks_metadata (D : Deps) (i : Inventory) (c : Cluster)
    (seederDeploymentService tinkStackService : Service) (hw : Hardware)
    (h : GenerateHWRequest D i c seederDeploymentService tinkStackService
      = .returned (some hw, none)) :
    hw.Spec.Disks = [{ Device := i.Spec.PrimaryDisk }] ∧
    ∃ md facility inst os,
      hw.Spec.Metadata = some md ∧ md.Facility = some facility ∧
      facility.FacilityCode = "on_prem" ∧
      md.Instance = some inst ∧ inst.OperatingSystem = some os ∧
      os.Version = c.Spec.HarvesterVersion ∧ os.Distro = "harvester" := by
  obtain ⟨ingressIP, m, ipxe, _, _, _, hhw, _⟩ := GenerateHWRequest_ok_fields h
  subst hhw
  exact ⟨rfl, _, _, _, _, rfl, rfl, rfl, rfl, rfl, rfl, rfl⟩

theorem GenerateHWRequest_disks_metadata_witness :
    GenerateHWRequest (sampleDeps "false" "10.0.0.5") sampleInventory
      (sampleCluster "v1.2.0" none) sampleSeederService sampleTinkService
      = .returned (some sampleModernHardware, none) ∧
    (sampleModernHardware.Spec.Disks = [{ Device := "/dev/sda" }] ∧
     ∃ md facility inst os,
      sampleModernHardware.Spec.Metadata = some md ∧ md.Facility = some facility ∧
      facility.FacilityCode = "on_prem" ∧
      md.Instance = some inst ∧ inst.OperatingSystem = some os ∧
      os.Version = "v1.2.0" ∧ os.Distro = "harvester") :=
  ⟨by rfl, GenerateHWRequest_disks_metadata (sampleDeps "false" "10.0.0.5") sampleInventory
    (sampleCluster "v1.2.0" none) sampleSeederService sampleTinkService sampleModernHardware
    (by rfl)⟩

/-- C12: after a successful call for a cluster whose version has the prefix
"v1.1", the document serialized into the user data has exactly one webhook, with
event "SUCCEEDED", method "PUT" and URL
`http://<endpoint>:<DefaultEndpointPort>/disable/<namespace>/<name>`, where the
endpoint is the IP of the first ingress entry of the seeder service when ingress
mode is enabled, and the configured literal address when it is disabled. -/
theorem GenerateHWRequest_webhook (D : Deps) (i : Inventory) (c : Cluster)
    (seederDeploymentService tinkStackService : Service) (hw : Hardware)
    (h : GenerateHWRequest D i c seederDeploymentService tinkStackService
      = .returned (some hw, none))
    (hlegacy : HasPrefix c.Spec.HarvesterVersion "v1.1" = true) :
    ∃ endpoint m,
      (D.Getenv "SEEDER_ENDPOINT_INGRESS_ENABLED" = "true" →
        ∃ e, seederDeploymentService.Status.LoadBalancer.Ingress[0]? = some e ∧
          endpoint = e.IP) ∧
      (D.Getenv "SEEDER_ENDPOINT_INGRESS_ENABLED" ≠ "true" →
        endpoint = D.Getenv "SEEDER_ENDPOINT_INGRESS_IP") ∧
      hw.Spec.UserData = some m ∧
      D.yamlMarshal (embeddedDocument D i c endpoint) = .ok m ∧
      (embeddedDocument D i c endpoint).Install.Webhooks =
        [{ Event := "SUCCEEDED"
           Method := "PUT"
           URL := "http://" ++ endpoint ++ ":" ++ toString D.DefaultEndpointPort ++
             "/disable/" ++ i.Namespace ++ "/" ++ i.Name }] := by
  obtain ⟨ingressIP, m, ipxe, hres, _, hdoc, hhw, _⟩ := GenerateHWRequest_ok_fields h
  have hpre : HasPrefix c.Spec.HarvesterVersion v11Prefix = true := hlegacy
  refine ⟨ingressIP, m, ?_, ?_, by rw [hhw], hdoc, ?_⟩
  · intro hen
    unfold resolvedIngressIP at hres
    simp only [hen, beq_self_eq_true, if_true, Option.map_eq_some'] at hres
    obtain ⟨e, he, hip⟩ := hres
    exact ⟨e, he, hip.symm⟩
  · intro hen
    unfold resolvedIngressIP at hres
    have hb : (D.Getenv "SEEDER_ENDPOINT_INGRESS_ENABLED" == "true") = false := by
      simpa using hen
    simp only [hb, Bool.false_eq_true, if_false, Option.some.injEq] at hres
    exact hres.symm
  · unfold embeddedDocument
    rw [cloudConfigDocument_Webhooks, if_pos hpre]
    rfl

/-- A legacy cluster with ingress mode disabled and the literal address 10.0.0.5. -/
theorem GenerateHWRequest_webhook_witness :
    GenerateHWRequest (sampleDeps "false" "10.0.0.5") sampleInventory
      (sampleCluster "v1.1.2" none) sampleSeederService sampleTinkService
      = .returned (some sampleLegacyHardware, none) ∧
    HasPrefix (sampleCluster "v1.1.2" none).Spec.HarvesterVersion "v1.1" = true ∧
    ∃ endpoint m,
      (sampleEnv "false" "10.0.0.5" "SEEDER_ENDPOINT_INGRESS_ENABLED" = "true" →
        ∃ e, sampleSeederService.Status.LoadBalancer.Ingress[0]? = some e ∧
          endpoint = e.IP) ∧
      (sampleEnv "false" "10.0.0.5" "SEEDER_ENDPOINT_INGRESS_ENABLED" ≠ "true" →
        endpoint = sampleEnv "false" "10.0.0.5" "SEEDER_ENDPOINT_INGRESS_IP") ∧
      sampleLegacyHardware.Spec.UserData = some m ∧
      sampleMarshal (embeddedDocument (sampleDeps "false" "10.0.0.5") sampleInventory
        (sampleCluster "v1.1.2" none) endpoint) = .ok m ∧
      (embeddedDocument (sampleDeps "false" "10.0.0.5") sampleInventory
        (sampleCluster "v1.1.2" none) endpoint).Install.Webhooks =
        [{ Event := "SUCCEEDED"
           Method := "PUT"
           URL := "http://" ++ endpoint ++ ":" ++ toString (9090 : Int) ++
             "/disable/" ++ "default" ++ "/" ++ "firstnode" }] :=
  ⟨by rfl, by decide,
   GenerateHWRequest_webhook (sampleDeps "false" "10.0.0.5") sampleInventory
    (sampleCluster "v1.1.2" none) sampleSeederService sampleTinkService sampleLegacyHardware
    (by rfl) (by decide)⟩

/-! ## Atomicity of `GenerateHWRequest` -/

/-- A call that returns gives either an error and no descriptor, or a
descriptor and no error. -/
theorem GenerateHWRequest_returned_cases {D : Deps} {i : Inventory} {c : Cluster}
    {seederDeploymentService tinkStackService : Service}
    {hw? : Option Hardware} {err? : Option String}
    (h : GenerateHWRequest D i c seederDeploymentService tinkStackService
      = .returned (hw?, err?)) :
    (hw? = none ∧ ∃ e, err? = some e) ∨ (∃ hw, hw? = some hw ∧ err? = none) := by
  unfold GenerateHWRequest at h
  simp only [] at h
  split at h
  · cases h
    exact Or.inl ⟨rfl, _, rfl⟩
  · split at h
    · cases h
    · split at h
      · cases h
      · split at h
        · cases h
          exact Or.inl ⟨rfl, _, rfl⟩
        · split at h
          · split at h
            · cases h
            · split at h
              · cases h
                exact Or.inl ⟨rfl, _, rfl⟩
              · split at h
                · cases h
                · cases h
                  exact Or.inr ⟨_, rfl, rfl⟩
          · cases h
            exact Or.inr ⟨_, rfl, rfl⟩

/-- C14: whenever `GenerateHWRequest` returns an error, the returned descriptor
is nil; whenever it returns no error, the descriptor is non-nil and its user
data is the string that `generateCloudConfig` returned, without error, for the
resolved endpoint. -/
theorem GenerateHWRequest_atomic (D : Deps) (i : Inventory) (c : Cluster)
    (seederDeploymentService tinkStackService : Service)
    (hw? : Option Hardware) (err? : Option String)
    (h : GenerateHWRequest D i c seederDeploymentService tinkStackService
      = .returned (hw?, err?)) :
    (err? ≠ none → hw? = none) ∧
    (err? = none →
      ∃ hw ingressIP m,
        hw? = some hw ∧
        resolvedIngressIP D seederDeploymentService = some ingressIP ∧
        generateCloudConfig D c.Spec.ConfigURL i.Spec.ManagementInterfaceMacAddress
          (if ConditionExists i D.HarvesterCreateNode then "create" else "join")
          c.Status.ClusterAddress c.Status.ClusterToken i.Status.GeneratedPassword
          i.Status.Address i.Status.Netmask i.Status.Gateway c.Spec.ClusterConfig.Nameservers
          c.Spec.ClusterConfig.SSHKeys
          (some (if c.Spec.BondOptions = none then
            mapAssign (mapAssign [] "mode" "balance-tlb") "miimon" "100" else []))
          c.Spec.ImageURL c.Spec.HarvesterVersion ingressIP i.Name i.Namespace = (m, none) ∧
        hw.Spec.UserData = some m) := by
  rcases GenerateHWRequest_returned_cases h with ⟨hnone, e, he⟩ | ⟨hw, hsome, hnoerr⟩
  · refine ⟨fun _ => hnone, ?_⟩
    intro hn
    rw [he] at hn
    cases hn
  · refine ⟨fun hne => absurd hnoerr hne, ?_⟩
    intro _
    subst hsome
    subst hnoerr
    obtain ⟨ingressIP, m, ipxe, hres, _, hdoc, hhw, _⟩ := GenerateHWRequest_ok_fields h
    refine ⟨hw, ingressIP, m, rfl, hres, ?_, by rw [hhw]⟩
    exact generateCloudConfig_eq _ _ _ _ _ _ _ _ _ _ _ _ _ _ _ _ _ _ _ hdoc

/-- The test's call: the create-node inventory "firstnode" and the cluster at
version "v1.2.0", with the endpoint 10.0.0.5. -/
theorem GenerateHWRequest_atomic_witness :
    GenerateHWRequest (sampleDeps "false" "10.0.0.5") sampleInventory
      (sampleCluster "v1.2.0" none) sampleSeederService sampleTinkService
      = .returned (some sampleModernHardware, none) ∧
    ∃ hw ingressIP m,
      some sampleModernHardware = some hw ∧
      resolvedIngressIP (sampleDeps "false" "10.0.0.5") sampleSeederService = some ingressIP ∧
      generateCloudConfig (sampleDeps "false" "10.0.0.5") "http://endpoint" "xx:xx:xx:xx:xx"
        "create" "192.168.1.100" "token" "password" "192.168.1.129" "255.255.255.0"
        "192.168.1.1" ["8.8.8.8", "8.8.4.4"] ["abc", "def"]
        (some [("mode", "balance-tlb"), ("miimon", "100")])
        "http://images" "v1.2.0" ingressIP "firstnode" "default" = (m, none) ∧
      hw.Spec.UserData = some m :=
  ⟨by rfl, (GenerateHWRequest_atomic (sampleDeps "false" "10.0.0.5") sampleInventory
    (sampleCluster "v1.2.0" none) sampleSeederService sampleTinkService
    (some sampleModernHardware) none (by rfl)).2 rfl⟩

/-! ## The workflow as a whole value -/

/-- C15, the failing input: for the test's node "test-node" and a cluster
without custom template, the workflow built is not the workflow that the
package's test expects, with only name, namespace and the two references: its
hardware map is set, to the single entry `device_1`; the test's second case,
with the custom template "override-template", differs in the same way. -/
theorem GenerateWorkflow_ne_expected :
    GenerateWorkflow sampleTestNode (sampleTestCluster "") ≠ sampleExpectedWorkflow "test-node" ∧
    (GenerateWorkflow sampleTestNode (sampleTestCluster "")).Spec.HardwareMap
      = some [("device_1", "")] ∧
    GenerateWorkflow sampleTestNode (sampleTestCluster "override-template")
      ≠ sampleExpectedWorkflow "override-template" := by
  refine ⟨?_, ?_, ?_⟩
  · decide
  · rfl
  · decide

/-- The whole value that `GenerateWorkflow` builds, for every input: the node's
name and namespace, the template reference (node name, or the custom template
when there is one), the hardware reference equal to the node's name, and a
hardware map with the single entry `device_1` valued with the node's management
MAC address, so it never equals a workflow whose hardware map is unset. -/
theorem GenerateWorkflow_whole_value (i : Inventory) (c : Cluster) :
    GenerateWorkflow i c =
      { Name := i.Name
        Namespace := i.Namespace
        Spec :=
          { TemplateRef :=
              if c.Spec.ClusterConfig.CustomProvisioningTemplate = "" then i.Name
              else c.Spec.ClusterConfig.CustomProvisioningTemplate
            HardwareRef := i.Name
            HardwareMap := some [("device_1", i.Spec.ManagementInterfaceMacAddress)] } } := by
  unfold GenerateWorkflow
  by_cases hc : c.Spec.ClusterConfig.CustomProvisioningTemplate = "" <;> simp [hc]

/-! ## The boot script -/

set_option maxRecDepth 20000 in
/-- C17: for all string arguments, `generateIPXEScript` returns no error and a
script that begins with "#!ipxe", sets `version` to the given version and `base`
to `<isoURL>/<version>`, performs `dhcp`, and has a kernel line, free of line
breaks in its fixed parts, that carries BOOTIF and the management-interface
hwAddr equal to the given MAC, static addressing with the given address, netmask
and gateway, the given install device, `harvester.install.automatic=true` and
`harvester.install.config_url` equal to the given endpoint, followed by the
`initrd` and `boot` commands; the remaining pieces are fixed text that does not
depend on the arguments. -/
theorem generateIPXEScript_shape :
    ∃ labels k1 k2 k3 k4 initrd : String,
      '\n' ∉ k1.data ∧ '\n' ∉ k2.data ∧ '\n' ∉ k3.data ∧ '\n' ∉ k4.data ∧
      '\n' ∉ initrd.data ∧
      ∀ harvesterVersion isoURL hegelEndpoint macAddress disk address netmask gateway : String,
        generateIPXEScript harvesterVersion isoURL hegelEndpoint macAddress disk address netmask
          gateway =
          ("#!ipxe\n\tset version " ++ harvesterVersion ++
           "\n\tset base " ++ isoURL ++ "/" ++ harvesterVersion ++
           "\n\tdhcp\n" ++ labels ++
           "\tkernel " ++ k1 ++
           " BOOTIF=" ++ macAddress ++ k2 ++
           " harvester.install.management_interface.interfaces=hwAddr:" ++ macAddress ++
           " harvester.install.management_interface.method=static" ++
           " harvester.install.management_interface.ip=" ++ address ++
           " harvester.install.management_interface.subnet_mask=" ++ netmask ++
           " harvester.install.management_interface.gateway=" ++ gateway ++
           " harvester.install.device=" ++ disk ++ k3 ++
           " harvester.install.automatic=true" ++ k4 ++
           " harvester.install.config_url=" ++ hegelEndpoint ++
           "\n\tinitrd " ++ initrd ++ "\n\tboot\n\t", none) := by
  refine ⟨"\tiflinkwait -t 5000\n\tgoto $\x7bifname\x7d\n\t:net0\n\tset address $\x7bnet0/mac\x7d\n\tgoto setupboot\n\t:net1\n\tset address $\x7bnet1/mac\x7d\n\tgoto setupboot\n\t:net2\n\tset address $\x7bnet2/mac\x7d\n\tgoto setupboot\n\t:net3\n\tset address $\x7bnet3/mac\x7d\n\tgoto setupboot\n\n\t:setupboot\n",
    "$\x7bbase\x7d/harvester-$\x7bversion\x7d-vmlinuz-amd64 initrd=harvester-$\x7bversion\x7d-initrd-amd64 ip=dhcp net.ifnames=1 rd.cos.disable rd.noverifyssl",
    " root=live:$\x7bbase\x7d/harvester-$\x7bversion\x7d-rootfs-amd64.squashfs",
    " harvester.install.management_interface.bond_options.mode=balance-tlb harvester.install.management_interface.bond_options.miimon=100 console=tty1",
    " boot_cmd=\x27echo include_ping_test=yes >> /etc/conf.d/net-online\x27",
    "$\x7bbase\x7d/harvester-$\x7bversion\x7d-initrd-amd64",
    by decide, by decide, by decide, by decide, by decide, ?_⟩
  intro harvesterVersion isoURL hegelEndpoint macAddress disk address netmask gateway
  have ha : ("\n\tdhcp\n\tiflinkwait -t 5000\n\tgoto $\x7bifname\x7d\n\t:net0\n\tset address $\x7bnet0/mac\x7d\n\tgoto setupboot\n\t:net1\n\tset address $\x7bnet1/mac\x7d\n\tgoto setupboot\n\t:net2\n\tset address $\x7bnet2/mac\x7d\n\tgoto setupboot\n\t:net3\n\tset address $\x7bnet3/mac\x7d\n\tgoto setupboot\n\n\t:setupboot\n\tkernel $\x7bbase\x7d/harvester-$\x7bversion\x7d-vmlinuz-amd64 initrd=harvester-$\x7bversion\x7d-initrd-amd64 ip=dhcp net.ifnames=1 rd.cos.disable rd.noverifyssl BOOTIF=" : String) =
      "\n\tdhcp\n" ++ "\tiflinkwait -t 5000\n\tgoto $\x7bifname\x7d\n\t:net0\n\tset address $\x7bnet0/mac\x7d\n\tgoto setupboot\n\t:net1\n\tset address $\x7bnet1/mac\x7d\n\tgoto setupboot\n\t:net2\n\tset address $\x7bnet2/mac\x7d\n\tgoto setupboot\n\t:net3\n\tset address $\x7bnet3/mac\x7d\n\tgoto setupboot\n\n\t:setupboot\n" ++
      "\tkernel " ++ "$\x7bbase\x7d/harvester-$\x7bversion\x7d-vmlinuz-amd64 initrd=harvester-$\x7bversion\x7d-initrd-amd64 ip=dhcp net.ifnames=1 rd.cos.disable rd.noverifyssl" ++
      " BOOTIF=" := by rfl
  have hb : (" root=live:$\x7bbase\x7d/harvester-$\x7bversion\x7d-rootfs-amd64.squashfs harvester.install.management_interface.interfaces=hwAddr:" : String) =
      " root=live:$\x7bbase\x7d/harvester-$\x7bversion\x7d-rootfs-amd64.squashfs" ++
      " harvester.install.management_interface.interfaces=hwAddr:" := by rfl
  have hc : (" harvester.install.management_interface.method=static harvester.install.management_interface.ip=" : String) =
      " harvester.install.management_interface.method=static" ++
      " harvester.install.management_interface.ip=" := by rfl
  have hd : (" harvester.install.management_interface.bond_options.mode=balance-tlb harvester.install.management_interface.bond_options.miimon=100 console=tty1 harvester.install.automatic=true boot_cmd=\x27echo include_ping_test=yes >> /etc/conf.d/net-online\x27 harvester.install.config_url=" : String) =
      " harvester.install.management_interface.bond_options.mode=balance-tlb harvester.install.management_interface.bond_options.miimon=100 console=tty1" ++
      " harvester.install.automatic=true" ++
      " boot_cmd=\x27echo include_ping_test=yes >> /etc/conf.d/net-online\x27" ++
      " harvester.install.config_url=" := by rfl
  have he : ("\n\tinitrd $\x7bbase\x7d/harvester-$\x7bversion\x7d-initrd-amd64\n\tboot\n\t" : String) =
      "\n\tinitrd " ++ "$\x7bbase\x7d/harvester-$\x7bversion\x7d-initrd-amd64" ++ "\n\tboot\n\t" := by rfl
  unfold generateIPXEScript
  rw [ha, hb, hc, hd, he]
  simp only [String.append_assoc]

/-! ## Which versions take the legacy branch -/

/-- C16, the failing inputs: the legacy branch is chosen by the textual prefix
"v1.1", so the version "v1.0.3", older than v1.2, gets no inline boot script
and no ISO URL, while the version "v1.10.0", newer than v1.2, gets both. -/
theorem legacy_branch_by_text :
    HasPrefix "v1.0.3" v11Prefix = false ∧
    inlineScriptFlags (GenerateHWRequest (sampleDeps "false" "10.0.0.5") sampleInventory
      (sampleCluster "v1.0.3" none) sampleSeederService sampleTinkService) = some [false] ∧
    (embeddedDocument (sampleDeps "false" "10.0.0.5") sampleInventory
      (sampleCluster "v1.0.3" none) "10.0.0.5").Install.ISOURL = "" ∧
    HasPrefix "v1.10.0" v11Prefix = true ∧
    inlineScriptFlags (GenerateHWRequest (sampleDeps "false" "10.0.0.5") sampleInventory
      (sampleCluster "v1.10.0" none) sampleSeederService sampleTinkService) = some [true] ∧
    (embeddedDocument (sampleDeps "false" "10.0.0.5") sampleInventory
      (sampleCluster "v1.10.0" none) "10.0.0.5").Install.ISOURL
      = "http://images/v1.10.0/harvester-v1.10.0-amd64.iso" := by
  refine ⟨by decide, by rfl, by rfl, by decide, by rfl, by rfl⟩

/-! ## The unguarded index into the tink stack service -/

/-- C18, the failing input: with the endpoint resolved to 10.0.0.5, a cluster at
version "v1.1.2" and a tink stack service without load-balancer ingress entry,
the call neither returns a descriptor nor an error: indexing the empty ingress
list panics. -/
theorem GenerateHWRequest_tink_ingress_panic :
    resolvedIngressIP (sampleDeps "false" "10.0.0.5") sampleSeederService = some "10.0.0.5" ∧
    GenerateHWRequest (sampleDeps "false" "10.0.0.5") sampleInventory
      (sampleCluster "v1.1.2" none) sampleSeederService (sampleService "tink" [])
      = .panicked "runtime error: index out of range [0] with length 0" := by
  constructor <;> rfl

/-! ## The install mode chosen from the node's conditions -/

theorem ConditionExists_iff (i : Inventory) (cond : String) :
    ConditionExists i cond = true ↔ ∃ x ∈ i.Status.Conditions, x.CondType = cond := by
  simp [ConditionExists, List.any_eq_true]

/-- C19: after a successful call, the install mode of the document serialized
into the user data is "create" exactly when the inventory carries a condition
of type HarvesterCreateNode, and "join" otherwise; a node without the condition
gets the server URL `https://<cluster address>:443` and no virtual IP, a node
with it gets the cluster address as virtual IP and no server URL. -/
theorem GenerateHWRequest_install_mode (D : Deps) (i : Inventory) (c : Cluster)
    (seederDeploymentService tinkStackService : Service) (hw : Hardware)
    (h : GenerateHWRequest D i c seederDeploymentService tinkStackService
      = .returned (some hw, none)) :
    ∃ ingressIP m,
      hw.Spec.UserData = some m ∧
      D.yamlMarshal (embeddedDocument D i c ingressIP) = .ok m ∧
      ((embeddedDocument D i c ingressIP).Install.Mode = "create" ↔
        ∃ x ∈ i.Status.Conditions, x.CondType = D.HarvesterCreateNode) ∧
      ((∃ x ∈ i.Status.Conditions, x.CondType = D.HarvesterCreateNode) →
        (embeddedDocument D i c ingressIP).Install.Mode = "create" ∧
        (embeddedDocument D i c ingressIP).Install.Vip = c.Status.ClusterAddress ∧
        (embeddedDocument D i c ingressIP).ServerURL = "") ∧
      ((¬ ∃ x ∈ i.Status.Conditions, x.CondType = D.HarvesterCreateNode) →
        (embeddedDocument D i c ingressIP).Install.Mode = "join" ∧
        (embeddedDocument D i c ingressIP).ServerURL
          = "https://" ++ c.Status.ClusterAddress ++ ":443" ∧
        (embeddedDocument D i c ingressIP).Install.Vip = "") := by
  obtain ⟨ingressIP, m, ipxe, _, _, hdoc, hhw, _⟩ := GenerateHWRequest_ok_fields h
  refine ⟨ingressIP, m, by rw [hhw], hdoc, ?_, ?_, ?_⟩
  · rw [← ConditionExists_iff]
    unfold embeddedDocument
    rw [cloudConfigDocument_Mode]
    by_cases hcond : ConditionExists i D.HarvesterCreateNode = true <;> simp [hcond]
  · intro hex
    have hcond := (ConditionExists_iff i D.HarvesterCreateNode).mpr hex
    unfold embeddedDocument
    rw [cloudConfigDocument_Mode, cloudConfigDocument_Vip, cloudConfigDocument_ServerURL]
    simp [hcond]
  · intro hex
    have hcond : ¬ ConditionExists i D.HarvesterCreateNode = true :=
      fun hc => hex ((ConditionExists_iff i D.HarvesterCreateNode).mp hc)
    unfold embeddedDocument
    rw [cloudConfigDocument_Mode, cloudConfigDocument_Vip, cloudConfigDocument_ServerURL]
    simp [hcond]

/-- The create-node inventory of the tests, and the same inventory without condition. -/
theorem GenerateHWRequest_install_mode_witness :
    (GenerateHWRequest (sampleDeps "false" "10.0.0.5") sampleInventory
      (sampleCluster "v1.2.0" none) sampleSeederService sampleTinkService
      = .returned (some sampleModernHardware, none) ∧
     ∃ ingressIP m,
      sampleModernHardware.Spec.UserData = some m ∧
      sampleMarshal (embeddedDocument (sampleDeps "false" "10.0.0.5") sampleInventory
        (sampleCluster "v1.2.0" none) ingressIP) = .ok m ∧
      (embeddedDocument (sampleDeps "false" "10.0.0.5") sampleInventory
        (sampleCluster "v1.2.0" none) ingressIP).Install.Mode = "create" ∧
      (embeddedDocument (sampleDeps "false" "10.0.0.5") sampleInventory
        (sampleCluster "v1.2.0" none) ingressIP).Install.Vip = "192.168.1.100" ∧
      (embeddedDocument (sampleDeps "false" "10.0.0.5") sampleInventory
        (sampleCluster "v1.2.0" none) ingressIP).ServerURL = "") ∧
    (GenerateHWRequest (sampleDeps "false" "10.0.0.5") sampleJoinInventory
      (sampleCluster "v1.2.0" none) sampleSeederService sampleTinkService
      = .returned (some sampleJoinHardware, none) ∧
     ∃ ingressIP m,
      sampleJoinHardware.Spec.UserData = some m ∧
      sampleMarshal (embeddedDocument (sampleDeps "false" "10.0.0.5") sampleJoinInventory
        (sampleCluster "v1.2.0" none) ingressIP) = .ok m ∧
      (embeddedDocument (sampleDeps "false" "10.0.0.5") sampleJoinInventory
        (sampleCluster "v1.2.0" none) ingressIP).Install.Mode = "join" ∧
      (embeddedDocument (sampleDeps "false" "10.0.0.5") sampleJoinInventory
        (sampleCluster "v1.2.0" none) ingressIP).ServerURL = "https://192.168.1.100:443" ∧
      (embeddedDocument (sampleDeps "false" "10.0.0.5") sampleJoinInventory
        (sampleCluster "v1.2.0" none) ingressIP).Install.Vip = "") := by
  constructor
  · refine ⟨by rfl, ?_⟩
    obtain ⟨ingressIP, m, hud, hm, _, hcreate, _⟩ :=
      GenerateHWRequest_install_mode (sampleDeps "false" "10.0.0.5") sampleInventory
        (sampleCluster "v1.2.0" none) sampleSeederService sampleTinkService
        sampleModernHardware (by rfl)
    exact ⟨ingressIP, m, hud, hm, hcreate ⟨⟨"harvesterCreateNode"⟩, by decide, rfl⟩⟩
  · refine ⟨by rfl, ?_⟩
    obtain ⟨ingressIP, m, hud, hm, _, _, hjoin⟩ :=
      GenerateHWRequest_install_mode (sampleDeps "false" "10.0.0.5") sampleJoinInventory
        (sampleCluster "v1.2.0" none) sampleSeederService sampleTinkService
        sampleJoinHardware (by rfl)
    exact ⟨ingressIP, m, hud, hm, hjoin (by decide)⟩

end Tink
